import Mathlib

/-!
Verification development for the tool-invocation mediation layer of the
agent repository: a shallow embedding in Lean 4 of the calculator tool
(`src/tools/calculator_tool.py`), the confined file tool
(`src/tools/file_tool.py`), the web tool (`src/tools/web_tool.py`), the
time tool (`src/tools/time_tool.py`), the `BaseTool.__call__` wrapper
(`src/tools/__init__.py`) and the tool registry
(`src/tools/tool_factory.py`), together with theorems settling the
frozen claims about this layer.

Modelling conventions:
* Python strings are Lean `String`s; all scanning/matching helpers are
  written over `List Char` so that every definition reduces in the
  kernel (`decide` / `rfl` on concrete inputs).
* Python numbers (int/float mixed arithmetic) are modelled as exact
  unnormalized rationals `PyQ` (numerator/denominator pair, denominator
  kept positive by construction); `PyQ.toRat` maps into `ℚ` for
  specification-level statements.  Binary-float rounding is not
  modelled; at every concrete input appearing in a theorem below the
  Python float computation is exact, so the models agree there.
* Python exceptions are explicit `Except`/`Option` values; a `try/except`
  block becomes a `match` converting the error into the message string
  the source builds.  The exact text of CPython exception payloads
  (`str(e)`) is approximated by fixed strings; no theorem depends on
  that text.
* The filesystem is an explicit state `FileSys` (a set of directories
  and a map from file paths to string contents); paths are lists of
  components, canonicalization (`Path.resolve`) is modelled lexically
  (symlinks are not modelled).
-/

/-! ## Basic string utilities (models of the Python `str` operations used) -/

/-- ASCII lower-casing of one character (model of `str.lower` on the
inputs considered; non-ASCII characters are unchanged, as in Python for
the CJK characters appearing here). -/
def asciiLowerChar (c : Char) : Char :=
  if 'A' ≤ c ∧ c ≤ 'Z' then Char.ofNat (c.toNat + 32) else c

/-- ASCII upper-casing of one character (model of `str.upper`). -/
def asciiUpperChar (c : Char) : Char :=
  if 'a' ≤ c ∧ c ≤ 'z' then Char.ofNat (c.toNat - 32) else c

def asciiLower (s : String) : String := String.mk (s.data.map asciiLowerChar)

def asciiUpper (s : String) : String := String.mk (s.data.map asciiUpperChar)

/-- Python whitespace characters (the ASCII part of `\s` / `str.strip`). -/
def isPyWS (c : Char) : Bool :=
  c = ' ' ∨ c = '\t' ∨ c = '\n' ∨ c = '\r' ∨ c = '\x0b' ∨ c = '\x0c'

/-- Does `pat` occur as a contiguous sublist of `l`?  (model of Python
`pat in s`). -/
def subOccursL (pat : List Char) : List Char → Bool
  | [] => pat.isEmpty
  | c :: tl => pat.isPrefixOf (c :: tl) || subOccursL pat tl

/-- Python `pat in s` for strings. -/
def containsSub (s pat : String) : Bool := subOccursL pat.data s.data

/-- Case-insensitive prefix test: does `l` start with `pat` (given in
lowercase), comparing lower-cased characters? -/
def ciPrefix (pat l : List Char) : Bool :=
  pat.isPrefixOf (l.map asciiLowerChar) -- only the prefix matters, mapping all is equivalent

/-- Strip leading and trailing whitespace (Python `str.strip()`). -/
def trimL (l : List Char) : List Char :=
  ((l.dropWhile isPyWS).reverse.dropWhile isPyWS).reverse

def strTrim (s : String) : String := String.mk (trimL s.data)

/-- Split `l` on every occurrence of the (nonempty) separator, Python
`str.split(sep)` semantics.  `fuel` bounds recursion; callers pass
`l.length + 1`, which is always sufficient. -/
def splitOnAuxL (sep : List Char) (fuel : Nat) (l cur : List Char) :
    List (List Char) :=
  match fuel with
  | 0 => [cur.reverse ++ l]
  | fuel + 1 =>
    if sep.isPrefixOf l then
      cur.reverse :: splitOnAuxL sep fuel (l.drop sep.length) []
    else
      match l with
      | [] => [cur.reverse]
      | c :: tl => splitOnAuxL sep fuel tl (c :: cur)

/-- Python `s.split(sep)` for a nonempty separator. -/
def pySplit (s sep : String) : List String :=
  (splitOnAuxL sep.data (s.data.length + 1) s.data []).map String.mk

/-- Replace every occurrence of `pat` by `rep` (Python `str.replace`). -/
def replaceAuxL (pat rep : List Char) (fuel : Nat) (l : List Char) : List Char :=
  match fuel with
  | 0 => l
  | fuel + 1 =>
    if pat ≠ [] ∧ pat.isPrefixOf l then
      rep ++ replaceAuxL pat rep fuel (l.drop pat.length)
    else
      match l with
      | [] => []
      | c :: tl => c :: replaceAuxL pat rep fuel tl

def pyReplace (s pat rep : String) : String :=
  String.mk (replaceAuxL pat.data rep.data (s.data.length + 1) s.data)

/-- First `n` characters of `s` (Python slicing / `f.read(n)`). -/
def strTake (s : String) (n : Nat) : String := String.mk (s.data.take n)

/-- Character count (Python `len` on `str`). -/
def strLen (s : String) : Nat := s.data.length

/-- UTF-8 encoded byte size (Python `len` on the encoded bytes /
`st_size` of a text file written with UTF-8 encoding). -/
def utf8Len (s : String) : Nat := s.data.foldl (fun n c => n + c.utf8Size) 0

/-- Join a list of strings with a separator (Python `sep.join(xs)`). -/
def joinSep (sep : String) : List String → String
  | [] => ""
  | [x] => x
  | x :: xs => x ++ sep ++ joinSep sep xs

def strStartsWith (s pre : String) : Bool := pre.data.isPrefixOf s.data

/-! ## Exact unnormalized rationals

`PyQ` models the numeric values flowing through the calculator: an
integer numerator and a positive integer denominator, never normalized
(so that all operations are plain integer arithmetic and reduce in the
kernel).  `toRat` is the semantic view into `ℚ`. -/

structure PyQ where
  num : Int
  den : Int
  deriving DecidableEq, Repr

def PyQ.ofInt (n : Int) : PyQ := ⟨n, 1⟩

def PyQ.toRat (a : PyQ) : ℚ := (a.num : ℚ) / (a.den : ℚ)

def PyQ.add (a b : PyQ) : PyQ := ⟨a.num * b.den + b.num * a.den, a.den * b.den⟩

def PyQ.sub (a b : PyQ) : PyQ := ⟨a.num * b.den - b.num * a.den, a.den * b.den⟩

def PyQ.mul (a b : PyQ) : PyQ := ⟨a.num * b.num, a.den * b.den⟩

def PyQ.neg (a : PyQ) : PyQ := ⟨-a.num, a.den⟩

/-- Division.  Callers guard against `b.num = 0` (Python raises
`ZeroDivisionError` there); the sign is moved into the numerator so the
denominator stays positive. -/
def PyQ.div (a b : PyQ) : PyQ :=
  let n := a.num * b.den
  let d := a.den * b.num
  if d < 0 then ⟨-n, -d⟩ else ⟨n, d⟩

/-- Multiplicative inverse (same guard as `PyQ.div`). -/
def PyQ.inv (a : PyQ) : PyQ :=
  if a.num < 0 then ⟨-a.den, -a.num⟩ else ⟨a.den, a.num⟩

def PyQ.powNat (a : PyQ) (k : Nat) : PyQ := ⟨a.num ^ k, a.den ^ k⟩

/-- Floor, assuming a positive denominator (`Int.ediv` is floor division
for positive divisors). -/
def PyQ.floorI (a : PyQ) : Int := a.num.ediv a.den

/-- Is the value an integer?  (model of `float.is_integer`). -/
def PyQ.isInt (a : PyQ) : Bool := a.num.emod a.den = 0

/-- Strict order, assuming positive denominators. -/
def PyQ.blt (a b : PyQ) : Bool := a.num * b.den < b.num * a.den

/-- Round half to even (the rounding used by Python `round` and string
formatting), assuming a positive denominator. -/
def PyQ.roundHE (a : PyQ) : Int :=
  let f := a.floorI
  let r2 := 2 * (a.num - f * a.den)
  if r2 < a.den then f
  else if a.den < r2 then f + 1
  else if f.emod 2 = 0 then f else f + 1

/-- Zero-pad the decimal representation of `n` to width `w`. -/
def natPad (n w : Nat) : String :=
  let s := toString n
  if s.data.length < w then String.mk (List.replicate (w - s.data.length) '0') ++ s
  else s

/-- Python `format(x, ".kf")`: fixed-point with `k` fractional digits,
round-half-even. -/
def fixedFrac (a : PyQ) (k : Nat) : String :=
  let r := PyQ.roundHE ⟨a.num * (10 ^ k : Nat), a.den⟩
  let sign := if r < 0 then "-" else ""
  let m := r.natAbs
  sign ++ toString (m / 10 ^ k) ++ "." ++ natPad (m % 10 ^ k) k

/-- Round to `k` digits and print with trailing zeros trimmed (but at
least one fractional digit), the shape of `str(float)` for a value with
a short decimal expansion. -/
def roundTrimmed (a : PyQ) (k : Nat) : String :=
  let r := PyQ.roundHE ⟨a.num * (10 ^ k : Nat), a.den⟩
  let sign := if r < 0 then "-" else ""
  let m := r.natAbs
  let frac := (natPad (m % 10 ^ k) k).data
  let frac := (frac.reverse.dropWhile (· = '0')).reverse
  let frac := if frac.isEmpty then ['0'] else frac
  sign ++ toString (m / 10 ^ k) ++ "." ++ String.mk frac

/-- Result formatting of `CalculatorTool._evaluate_math`: an integral
value prints as an integer, otherwise the value is rounded to 6
fractional digits (`round(result, 6)`) and printed like a float. -/
def formatNumber (a : PyQ) : String :=
  if a.isInt then toString a.floorI else roundTrimmed a 6

/-- `str(float)` (an f-string `\x7bvalue\x7d` interpolation).  Integral
values print as `n.0`; otherwise the shortest-roundtrip float repr is
approximated by a 17-digit rounded expansion with trailing zeros
trimmed.  Every concrete value reaching this function in a theorem
below is integral, where the model is exact. -/
def pyFloatStr (a : PyQ) : String :=
  if a.isInt then toString a.floorI ++ ".0" else roundTrimmed a 17

/-! ## Calculator tool: input validation (`CalculatorTool.validate_input`)

The deny-list is the list of regexes
`import\s+`, `exec\s*\(`, `eval\s*\(`, `__.*__`, `open\s*\(`, `os\.`,
`sys\.`, `subprocess\.`, each searched case-insensitively. -/

/-- Search for (lowercase) `word` followed by at least one whitespace
character (regex `word\s+`). -/
def matchWordWS (word : List Char) : List Char → Bool
  | [] => false
  | c :: tl =>
    (word.isPrefixOf (c :: tl) &&
      (match ((c :: tl).drop word.length).head? with
       | some h => isPyWS h
       | none => false))
    || matchWordWS word tl

/-- Search for (lowercase) `word` followed by optional whitespace and an
opening parenthesis (regex `word\s*\(`). -/
def matchWordParen (word : List Char) : List Char → Bool
  | [] => false
  | c :: tl =>
    (word.isPrefixOf (c :: tl) &&
      (((c :: tl).drop word.length).dropWhile isPyWS).headD 'x' = '(')
    || matchWordParen word tl

/-- Suffix of `l` strictly after the first occurrence of `pat`. -/
def afterFirstSub (pat : List Char) : List Char → Option (List Char)
  | [] => if pat.isEmpty then some [] else none
  | c :: tl =>
    if pat.isPrefixOf (c :: tl) then some ((c :: tl).drop pat.length)
    else afterFirstSub pat tl

/-- Regex `__.*__` searched over one line: two occurrences of `__`
with anything but a newline in between. -/
def lineHasDunder (l : List Char) : Bool :=
  match afterFirstSub ['_', '_'] l with
  | none => false
  | some rest => subOccursL ['_', '_'] rest

/-- Regex search `__.*__` (`.` does not cross newlines). -/
def matchDunder (l : List Char) : Bool :=
  (splitOnAuxL ['\n'] (l.length + 1) l []).any lineHasDunder

/-- `CalculatorTool.validate_input`'s deny-list test: does the
expression match one of the dangerous patterns (case-insensitively)? -/
def dangerousExpr (expression : String) : Bool :=
  let l := expression.data.map asciiLowerChar
  matchWordWS "import".data l ||
  matchWordParen "exec".data l ||
  matchWordParen "eval".data l ||
  matchDunder l ||
  matchWordParen "open".data l ||
  subOccursL "os.".data l ||
  subOccursL "sys.".data l ||
  subOccursL "subprocess.".data l

/-- `CalculatorTool.validate_input` on the kwargs dict
`\x7b"expression": e\x7d`: the expression must be a nonempty string and
match no dangerous pattern. -/
def calcValidateInput (expression : String) : Bool :=
  expression ≠ "" && !dangerousExpr expression

/-! ## Calculator tool: expression preprocessing
(`CalculatorTool._preprocess_expression`) -/

/-- Try to match (case-insensitively) `name` followed by optional
whitespace and `(` at the head of `l`; on success return the characters
after the `(` (regex `name\s*\(`). -/
def matchCallAt (name l : List Char) : Option (List Char) :=
  if ciPrefix name l then
    match (l.drop name.length).dropWhile isPyWS with
    | '(' :: rest => some rest
    | _ => none
  else none

/-- One `re.sub(name\s*\(, repl, s, IGNORECASE)` pass: left-to-right,
non-overlapping, the replacement text is not rescanned. -/
def replaceCallAux (name repl : List Char) (fuel : Nat) (l : List Char) :
    List Char :=
  match fuel with
  | 0 => l
  | fuel + 1 =>
    match matchCallAt name l with
    | some rest => repl ++ replaceCallAux name repl fuel rest
    | none =>
      match l with
      | [] => []
      | c :: tl => c :: replaceCallAux name repl fuel tl

def replaceCall (name repl s : String) : String :=
  String.mk (replaceCallAux name.data repl.data (s.data.length + 1) s.data)

/-- `CalculatorTool._preprocess_expression`: canonicalize operator glyphs
and rewrite the allow-listed function names to their `math.` forms. -/
def preprocessExpression (expr : String) : String :=
  let e := pyReplace (pyReplace (pyReplace expr "×" "*") "÷" "/") "^" "**"
  let e := replaceCall "sin" "math.sin(" e
  let e := replaceCall "cos" "math.cos(" e
  let e := replaceCall "tan" "math.tan(" e
  let e := replaceCall "sqrt" "math.sqrt(" e
  let e := replaceCall "log" "math.log10(" e
  let e := replaceCall "ln" "math.log(" e
  let e := replaceCall "exp" "math.exp(" e
  let e := replaceCall "abs" "abs(" e
  e

/-! ## Calculator tool: restricted arithmetic interpreter
(`CalculatorTool._evaluate_math`)

The source hands the preprocessed text to Python `eval` under a
restricted global dict.  The embedding interprets the numeric fragment
of that language: numeric literals, `+ - * / // % **`, unary signs and
parentheses, over exact rationals.  Resolution of the allow-listed
transcendental functions and constants (`math.sin`, `pi`, ...) is not
modelled: any letter in the token stream is mapped to a generic
evaluation fault, as is any Python-side `SyntaxError`/`NameError`.  No
claim below depends on an expression using those names. -/

inductive CalcErr where
  | zeroDiv
  | valueErr (m : String)
  | genErr (m : String)
  deriving DecidableEq, Repr

inductive CTok where
  | num (v : PyQ)
  | bop (s : String)
  | lpar
  | rpar
  deriving DecidableEq, Repr

def isAsciiDigit (c : Char) : Bool := '0' ≤ c ∧ c ≤ '9'

def isDigitOrDot (c : Char) : Bool := isAsciiDigit c ∨ c = '.'

def digitsVal (l : List Char) : Nat := l.foldl (fun n c => n * 10 + (c.toNat - 48)) 0

/-- Parse a run of digits/dots as a numeric literal: at most one dot and
at least one digit (`10`, `10.`, `.5`; `.` and `1.2.3` are invalid, as
for Python literals / `float()`). -/
def parseNumRun (l : List Char) : Option PyQ :=
  match splitOnAuxL ['.'] (l.length + 1) l [] with
  | [ip] => if ip = [] then none else some ⟨Int.ofNat (digitsVal ip), 1⟩
  | [ip, fp] =>
    if ip = [] ∧ fp = [] then none
    else some ⟨Int.ofNat (digitsVal ip * 10 ^ fp.length + digitsVal fp),
               Int.ofNat (10 ^ fp.length)⟩
  | _ => none

def tokenizeAux (fuel : Nat) (l : List Char) : Except CalcErr (List CTok) :=
  match fuel with
  | 0 => .error (.genErr "tokenizer fuel exhausted")
  | fuel + 1 =>
    match l with
    | [] => .ok []
    | c :: tl =>
      if isPyWS c then tokenizeAux fuel tl
      else if isDigitOrDot c then
        let run := (c :: tl).takeWhile isDigitOrDot
        match parseNumRun run with
        | none => .error (.genErr "invalid numeric literal")
        | some v =>
          (tokenizeAux fuel ((c :: tl).drop run.length)).map
            (fun ts => .num v :: ts)
      else if c = '*' then
        match tl with
        | '*' :: tl2 => (tokenizeAux fuel tl2).map (fun ts => .bop "**" :: ts)
        | _ => (tokenizeAux fuel tl).map (fun ts => .bop "*" :: ts)
      else if c = '/' then
        match tl with
        | '/' :: tl2 => (tokenizeAux fuel tl2).map (fun ts => .bop "//" :: ts)
        | _ => (tokenizeAux fuel tl).map (fun ts => .bop "/" :: ts)
      else if c = '+' then (tokenizeAux fuel tl).map (fun ts => .bop "+" :: ts)
      else if c = '-' then (tokenizeAux fuel tl).map (fun ts => .bop "-" :: ts)
      else if c = '%' then (tokenizeAux fuel tl).map (fun ts => .bop "%" :: ts)
      else if c = '(' then (tokenizeAux fuel tl).map (fun ts => .lpar :: ts)
      else if c = ')' then (tokenizeAux fuel tl).map (fun ts => .rpar :: ts)
      else .error (.genErr "unsupported name or symbol in expression")

/-- Multiplicative-level binary operators, with Python's
`ZeroDivisionError` on `/ // %` by zero. -/
def applyMulOp (o : String) (a b : PyQ) : Except CalcErr PyQ :=
  if o = "*" then .ok (a.mul b)
  else if o = "/" then
    if b.num = 0 then .error .zeroDiv else .ok (a.div b)
  else if o = "//" then
    if b.num = 0 then .error .zeroDiv else .ok ⟨(a.div b).floorI, 1⟩
  else if o = "%" then
    if b.num = 0 then .error .zeroDiv
    else .ok (a.sub (b.mul ⟨(a.div b).floorI, 1⟩))
  else .error (.genErr "unknown operator")

/-- Exponentiation: integral exponents only (`0 ** -1` raises
`ZeroDivisionError` in Python); fractional exponents (float pow) are
outside the modelled fragment. -/
def applyPow (a b : PyQ) : Except CalcErr PyQ :=
  if b.isInt then
    let e := b.floorI
    if 0 ≤ e then .ok (a.powNat e.toNat)
    else if a.num = 0 then .error .zeroDiv
    else .ok (a.inv.powNat (-e).toNat)
  else .error (.genErr "non-integer exponent not modelled")

mutual

def parseSum (fuel : Nat) (ts : List CTok) : Except CalcErr (PyQ × List CTok) :=
  match fuel with
  | 0 => .error (.genErr "parser fuel exhausted")
  | fuel + 1 => do
    let (a, ts1) ← parseProd fuel ts
    parseSumRest fuel a ts1

def parseSumRest (fuel : Nat) (acc : PyQ) (ts : List CTok) :
    Except CalcErr (PyQ × List CTok) :=
  match fuel with
  | 0 => .error (.genErr "parser fuel exhausted")
  | fuel + 1 =>
    match ts with
    | .bop "+" :: ts1 => do
      let (b, ts2) ← parseProd fuel ts1
      parseSumRest fuel (acc.add b) ts2
    | .bop "-" :: ts1 => do
      let (b, ts2) ← parseProd fuel ts1
      parseSumRest fuel (acc.sub b) ts2
    | _ => .ok (acc, ts)

def parseProd (fuel : Nat) (ts : List CTok) : Except CalcErr (PyQ × List CTok) :=
  match fuel with
  | 0 => .error (.genErr "parser fuel exhausted")
  | fuel + 1 => do
    let (a, ts1) ← parseUnary fuel ts
    parseProdRest fuel a ts1

def parseProdRest (fuel : Nat) (acc : PyQ) (ts : List CTok) :
    Except CalcErr (PyQ × List CTok) :=
  match fuel with
  | 0 => .error (.genErr "parser fuel exhausted")
  | fuel + 1 =>
    match ts with
    | .bop o :: ts1 =>
      if o = "*" ∨ o = "/" ∨ o = "//" ∨ o = "%" then do
        let (b, ts2) ← parseUnary fuel ts1
        let c ← applyMulOp o acc b
        parseProdRest fuel c ts2
      else .ok (acc, ts)
    | _ => .ok (acc, ts)

def parseUnary (fuel : Nat) (ts : List CTok) : Except CalcErr (PyQ × List CTok) :=
  match fuel with
  | 0 => .error (.genErr "parser fuel exhausted")
  | fuel + 1 =>
    match ts with
    | .bop "-" :: ts1 =>
      (parseUnary fuel ts1).map (fun p => (p.1.neg, p.2))
    | .bop "+" :: ts1 => parseUnary fuel ts1
    | _ => parsePow fuel ts

def parsePow (fuel : Nat) (ts : List CTok) : Except CalcErr (PyQ × List CTok) :=
  match fuel with
  | 0 => .error (.genErr "parser fuel exhausted")
  | fuel + 1 => do
    let (a, ts1) ← parseAtom fuel ts
    match ts1 with
    | .bop "**" :: ts2 => do
      let (b, ts3) ← parseUnary fuel ts2
      let c ← applyPow a b
      .ok (c, ts3)
    | _ => .ok (a, ts1)

def parseAtom (fuel : Nat) (ts : List CTok) : Except CalcErr (PyQ × List CTok) :=
  match fuel with
  | 0 => .error (.genErr "parser fuel exhausted")
  | fuel + 1 =>
    match ts with
    | .num v :: ts1 => .ok (v, ts1)
    | .lpar :: ts1 => do
      let (v, ts2) ← parseSum fuel ts1
      match ts2 with
      | .rpar :: ts3 => .ok (v, ts3)
      | _ => .error (.genErr "expected closing parenthesis")
    | _ => .error (.genErr "syntax")

end

/-- `CalculatorTool._evaluate_math` on the modelled fragment. -/
def evaluateMath (expr : String) : Except CalcErr PyQ := do
  let ts ← tokenizeAux (expr.data.length + 1) expr.data
  let (v, rest) ← parseSum (ts.length * 4 + 8) ts
  if rest = [] then .ok v else .error (.genErr "unexpected trailing tokens")


/-! ## Calculator tool: unit and temperature conversion
(`CalculatorTool._convert_units`, `CalculatorTool._convert_temperature`)

The conversion tables of `CalculatorTool.__init__`: length and weight
map unit symbols to scale factors; the temperature "factors" in the
source are strings (`'celsius'`…), modelled as `none` — they are only
ever used for membership tests, since temperature symbols are handled
by the pivot formula before the factor tables are consulted. -/

def lengthUnits : List (String × Option PyQ) :=
  [("m", some ⟨1, 1⟩), ("km", some ⟨1000, 1⟩), ("cm", some ⟨1, 100⟩),
   ("mm", some ⟨1, 1000⟩), ("inch", some ⟨254, 10000⟩),
   ("ft", some ⟨3048, 10000⟩), ("mile", some ⟨1609344, 1000⟩)]

def weightUnits : List (String × Option PyQ) :=
  [("kg", some ⟨1, 1⟩), ("g", some ⟨1, 1000⟩), ("mg", some ⟨1, 1000000⟩),
   ("lb", some ⟨453592, 1000000⟩), ("oz", some ⟨283495, 10000000⟩)]

def temperatureUnits : List (String × Option PyQ) :=
  [("c", none), ("f", none), ("k", none)]

/-- `self.units`, in dict insertion order. -/
def unitsTable : List (String × List (String × Option PyQ)) :=
  [("length", lengthUnits), ("weight", weightUnits),
   ("temperature", temperatureUnits)]

def unitMem (units : List (String × Option PyQ)) (u : String) : Bool :=
  units.any (fun e => e.1 == u)

/-- The first category whose unit table registers both symbols
(the `for category, units in self.units.items()` loop). -/
def findUnitCategory (fu tu : String) :
    Option (String × List (String × Option PyQ)) :=
  unitsTable.find? (fun cat => unitMem cat.2 fu && unitMem cat.2 tu)

def catFactor (units : List (String × Option PyQ)) (u : String) : Option PyQ :=
  match units.find? (fun e => e.1 == u) with
  | some (_, some f) => some f
  | _ => none

/-- `from_unit in ['c', 'f', 'k']`. -/
def isTempSym (u : String) : Bool := u = "c" ∨ u = "f" ∨ u = "k"

def q27315 : PyQ := ⟨27315, 100⟩

/-- `CalculatorTool._convert_temperature`: pivot through Celsius;
an unrecognized symbol raises `ValueError` (the error case). -/
def convertTemperatureE (v : PyQ) (fu tu : String) : Except String PyQ := do
  let c ←
    if fu = "c" then .ok v
    else if fu = "f" then .ok ((v.sub ⟨32, 1⟩).mul ⟨5, 9⟩)
    else if fu = "k" then .ok (v.sub q27315)
    else .error ("不支持的温度单位: " ++ fu)
  if tu = "c" then .ok c
  else if tu = "f" then .ok ((c.mul ⟨9, 5⟩).add ⟨32, 1⟩)
  else if tu = "k" then .ok (c.add q27315)
  else .error ("不支持的温度单位: " ++ tu)

/-- The conversion computation of `_convert_units` after the numeric
value and the two unit symbols have been parsed:
temperature pivot when both symbols are temperature symbols; otherwise
category lookup and linear scaling `value * factor(from) / factor(to)`
(`base_value = value * units[from]; result = base_value / units[to]`).
A category hit whose stored factors are not numbers (only possible for
the temperature row, which is unreachable here) is the `TypeError`
branch of the source's catch-all. -/
def convertParsedUnits (value : PyQ) (fu tu : String) : String :=
  if isTempSym fu && isTempSym tu then
    match convertTemperatureE value fu tu with
    | .ok r => pyFloatStr value ++ asciiUpper fu ++ " = " ++ pyFloatStr r ++ asciiUpper tu
    | .error m => "单位转换错误: " ++ m
  else
    match findUnitCategory fu tu with
    | none => "不支持 " ++ fu ++ " 到 " ++ tu ++ " 的转换"
    | some cat =>
      match catFactor cat.2 fu, catFactor cat.2 tu with
      | some f, some g =>
        pyFloatStr value ++ fu ++ " = " ++ fixedFrac ((value.mul f).div g) 4 ++ tu
      | _, _ => "单位转换错误: unsupported operand type"

def isAsciiAlpha (c : Char) : Bool := ('a' ≤ c ∧ c ≤ 'z') ∨ ('A' ≤ c ∧ c ≤ 'Z')

/-- `re.match(r'([\d\.]+)\s*([a-zA-Z]+)', from_part)`: a leading run of
digits/dots, optional whitespace, then a run of letters; anything after
the unit letters is ignored by `re.match`. -/
def matchNumUnit (l : List Char) : Option (List Char × List Char) :=
  let numRun := l.takeWhile isDigitOrDot
  if numRun = [] then none
  else
    let rest := (l.drop numRun.length).dropWhile isPyWS
    let unitRun := rest.takeWhile isAsciiAlpha
    if unitRun = [] then none else some (numRun, unitRun)

/-- `float(text)` on a capture of `[\d\.]+` (signs/exponents cannot
occur); `none` models `ValueError`. -/
def parseFloatChecked (l : List Char) : Option PyQ :=
  if l.all isDigitOrDot then parseNumRun l else none

/-- `CalculatorTool._convert_units`: lower-case, split on `"to"`,
parse `<number><unit>`, then convert.  Every internal exception is
caught and rendered as a `单位转换错误:` message. -/
def convertUnits (expr : String) : String :=
  match pySplit (asciiLower expr) "to" with
  | [p1, p2] =>
    let fp := trimL p1.data
    let tu := String.mk (trimL p2.data)
    match matchNumUnit fp with
    | none => "无法解析数值和单位"
    | some (numRun, unitRun) =>
      match parseFloatChecked numRun with
      | none => "单位转换错误: could not convert string to float"
      | some v => convertParsedUnits v (String.mk unitRun) tu
  | _ => "格式错误，请使用 \x2710km to m\x27 格式"

/-! ## Calculator tool: statistical analysis
(`CalculatorTool._statistical_analysis`) -/

def isDataChar (c : Char) : Bool := isDigitOrDot c ∨ c = ',' ∨ isPyWS c

/-- `re.search(r'\(\[([\d\.,\s]+)\]\)', expr)`: the capture group of the
first position admitting a full match.  (The character class excludes
`]`, so the greedy run needs no backtracking.) -/
def extractDataRun : List Char → Option (List Char)
  | [] => none
  | c :: tl =>
    if ['(', '['].isPrefixOf (c :: tl) then
      let body := (c :: tl).drop 2
      let run := body.takeWhile isDataChar
      if run ≠ [] ∧ [']', ')'].isPrefixOf (body.drop run.length) then some run
      else extractDataRun tl
    else extractDataRun tl

/-- `[float(x.strip()) for x in data_str.split(',')]`; `none` models the
`ValueError` of any failing element. -/
def parseDataList (run : List Char) : Option (List PyQ) :=
  (splitOnAuxL [','] (run.length + 1) run []).foldr
    (fun it acc =>
      match acc, parseFloatChecked (trimL it) with
      | some l, some v => some (v :: l)
      | _, _ => none)
    (some [])

def meanQ (data : List PyQ) : PyQ :=
  (data.foldl PyQ.add ⟨0, 1⟩).div ⟨Int.ofNat data.length, 1⟩

def medianQ (data : List PyQ) : PyQ :=
  let s := data.mergeSort (fun a b => !PyQ.blt b a)
  let n := s.length
  if n % 2 = 1 then s.getD (n / 2) ⟨0, 1⟩
  else ((s.getD (n / 2 - 1) ⟨0, 1⟩).add (s.getD (n / 2) ⟨0, 1⟩)).div ⟨2, 1⟩

/-- Sample variance (`statistics.variance`), callers guard `n ≥ 2`. -/
def varQ (data : List PyQ) : PyQ :=
  let m := meanQ data
  (data.foldl (fun (acc x : PyQ) => acc.add ((x.sub m).mul (x.sub m))) ⟨0, 1⟩).div
    ⟨Int.ofNat (data.length - 1), 1⟩

/-- Float square root approximated to 6 fractional digits (used only for
the sample standard deviation, which no claim evaluates). -/
def qSqrtApprox (a : PyQ) : PyQ :=
  ⟨Int.ofNat (Nat.sqrt (a.num.toNat * a.den.toNat * 10 ^ 12)),
   Int.ofNat (a.den.toNat * 10 ^ 6)⟩

/-- `str([1.0, 2.0, ...])`, the `(数据: ...)` part of the output. -/
def fmtDataList (data : List PyQ) : String :=
  "[" ++ joinSep ", " (data.map pyFloatStr) ++ "]"

def fmtStat (op : String) (r : PyQ) (data : List PyQ) : String :=
  op ++ ": " ++ fixedFrac r 4 ++ " (数据: " ++ fmtDataList data ++ ")"

/-- `CalculatorTool._statistical_analysis`.  `statistics.stdev` /
`statistics.variance` raise `StatisticsError` on fewer than two data
points, rendered by the catch-all. -/
def statisticalAnalysis (expr : String) : String :=
  match extractDataRun expr.data with
  | none => "格式错误，请使用 \x27mean([1,2,3,4,5])\x27 格式"
  | some run =>
    match parseDataList run with
    | none => "统计分析错误: could not convert string to float"
    | some data =>
      if strStartsWith expr "mean(" then fmtStat "平均值" (meanQ data) data
      else if strStartsWith expr "median(" then fmtStat "中位数" (medianQ data) data
      else if strStartsWith expr "std(" then
        if data.length < 2 then "统计分析错误: stdev requires at least two data points"
        else fmtStat "标准差" (qSqrtApprox (varQ data)) data
      else if strStartsWith expr "var(" then
        if data.length < 2 then "统计分析错误: variance requires at least two data points"
        else fmtStat "方差" (varQ data) data
      else "不支持的统计函数"

/-! ## Calculator tool: execution and dispatch
(`CalculatorTool.execute`, `BaseTool.__call__`,
`ToolFactory._register_tools`) -/

/-- Which branch of `CalculatorTool.execute` handled the expression.
`rejected` marks the `validate_input` failure of `BaseTool.__call__`;
`math` is the branch that invokes the underlying `eval` interpreter. -/
inductive CalcRoute where
  | rejected
  | conversion
  | stats
  | math
  deriving DecidableEq, Repr

structure CalcOutcome where
  route : CalcRoute
  output : String
  deriving DecidableEq, Repr

/-- `CalculatorTool.execute`: preprocess, then dispatch by lexical
shape — `'to' in expr.lower()` routes to unit conversion, a leading
aggregate name to statistics, anything else to the interpreter; the
surrounding `try/except` renders `ZeroDivisionError` / `ValueError` /
`Exception` as the three diagnostic strings. -/
def calcExecuteO (expression : String) : CalcOutcome :=
  let expr := preprocessExpression expression
  if containsSub (asciiLower expr) "to" then
    ⟨.conversion, convertUnits expr⟩
  else if strStartsWith expr "mean(" || strStartsWith expr "median(" ||
      strStartsWith expr "std(" || strStartsWith expr "var(" then
    ⟨.stats, statisticalAnalysis expr⟩
  else
    ⟨.math,
      match evaluateMath expr with
      | .ok v => "计算结果: " ++ formatNumber v
      | .error .zeroDiv => "错误：除数不能为零"
      | .error (.valueErr m) => "输入错误: " ++ m
      | .error (.genErr m) => "计算错误: " ++ m⟩

/-- `BaseTool.__call__` applied to the calculator with keyword argument
`expression`: `validate_input` first, `execute` only on success. -/
def calcToolCall (expression : String) : CalcOutcome :=
  if calcValidateInput expression then calcExecuteO expression
  else ⟨.rejected, "工具 calculator 输入验证失败"⟩

/-- The registry entry built by `ToolFactory._register_tools`:
`Tool(func=lambda x: calculator_tool.execute(expression=x))` — it calls
`execute` directly, without `validate_input`. -/
def calcRegistryDispatch (x : String) : CalcOutcome := calcExecuteO x


/-! ## JSON model (`json.load` / `json.dumps(indent=2, ensure_ascii=False)`)

Used by the `.json` branch of `FileTool._read_file` and by
`WebTool._parse_json`.  The parser accepts standard JSON (numbers as
exact rationals, common string escapes); `NaN/Infinity` extensions and
the leading-zero prohibition are not modelled — no claim exercises
them. -/

inductive JVal where
  | jnull
  | jbool (b : Bool)
  | jnum (n : PyQ)
  | jstr (s : String)
  | jarr (xs : List JVal)
  | jobj (kvs : List (String × JVal))

def jSkipWS (l : List Char) : List Char := l.dropWhile isPyWS

def hexVal (c : Char) : Option Nat :=
  if isAsciiDigit c then some (c.toNat - 48)
  else if 'a' ≤ c ∧ c ≤ 'f' then some (c.toNat - 87)
  else if 'A' ≤ c ∧ c ≤ 'F' then some (c.toNat - 55)
  else none

/-- Parse the body of a JSON string literal (after the opening quote). -/
def jParseStrAux (fuel : Nat) (l acc : List Char) : Option (String × List Char) :=
  match fuel with
  | 0 => none
  | fuel + 1 =>
    match l with
    | [] => none
    | '"' :: rest => some (String.mk acc.reverse, rest)
    | '\\' :: e :: rest =>
      if e = '"' then jParseStrAux fuel rest ('"' :: acc)
      else if e = '\\' then jParseStrAux fuel rest ('\\' :: acc)
      else if e = '/' then jParseStrAux fuel rest ('/' :: acc)
      else if e = 'n' then jParseStrAux fuel rest ('\n' :: acc)
      else if e = 't' then jParseStrAux fuel rest ('\t' :: acc)
      else if e = 'r' then jParseStrAux fuel rest ('\r' :: acc)
      else if e = 'b' then jParseStrAux fuel rest ('\x08' :: acc)
      else if e = 'f' then jParseStrAux fuel rest ('\x0c' :: acc)
      else if e = 'u' then
        match rest with
        | h1 :: h2 :: h3 :: h4 :: rest2 =>
          match hexVal h1, hexVal h2, hexVal h3, hexVal h4 with
          | some a, some b, some c, some d =>
            jParseStrAux fuel rest2 (Char.ofNat (((a * 16 + b) * 16 + c) * 16 + d) :: acc)
          | _, _, _, _ => none
        | _ => none
      else none
    | c :: rest => jParseStrAux fuel rest (c :: acc)

/-- Parse a JSON number starting at `l`. -/
def jParseNum (l : List Char) : Option (PyQ × List Char) :=
  let (sign, l1) := match l with
    | '-' :: rest => ((-1 : Int), rest)
    | _ => ((1 : Int), l)
  let intRun := l1.takeWhile isAsciiDigit
  if intRun = [] then none
  else
    let l2 := l1.drop intRun.length
    let (fracRun, l3) := match l2 with
      | '.' :: rest => (rest.takeWhile isAsciiDigit, (rest.dropWhile isAsciiDigit))
      | _ => ([], l2)
    if l2 ≠ l3 ∧ fracRun = [] then none
    else
      let mantissa : Int := Int.ofNat (digitsVal intRun * 10 ^ fracRun.length + digitsVal fracRun)
      let base : PyQ := ⟨sign * mantissa, Int.ofNat (10 ^ fracRun.length)⟩
      match l3 with
      | e :: rest =>
        if e = 'e' ∨ e = 'E' then
          let (esign, r1) := match rest with
            | '+' :: r => ((1 : Int), r)
            | '-' :: r => ((-1 : Int), r)
            | _ => ((1 : Int), rest)
          let eRun := r1.takeWhile isAsciiDigit
          if eRun = [] then none
          else
            let k := digitsVal eRun
            let v := if esign = 1 then PyQ.mk (base.num * (10 ^ k : Nat)) base.den
                     else PyQ.mk base.num (base.den * (10 ^ k : Nat))
            some (v, r1.drop eRun.length)
        else some (base, l3)
      | [] => some (base, [])

mutual

def jParseVal (fuel : Nat) (l : List Char) : Option (JVal × List Char) :=
  match fuel with
  | 0 => none
  | fuel + 1 =>
    match jSkipWS l with
    | [] => none
    | c :: rest =>
      if c = 'n' then
        if "ull".data.isPrefixOf rest then some (.jnull, rest.drop 3) else none
      else if c = 't' then
        if "rue".data.isPrefixOf rest then some (.jbool true, rest.drop 3) else none
      else if c = 'f' then
        if "alse".data.isPrefixOf rest then some (.jbool false, rest.drop 4) else none
      else if c = '"' then
        match jParseStrAux (rest.length + 1) rest [] with
        | some (s, r) => some (.jstr s, r)
        | none => none
      else if c = '[' then
        match jSkipWS rest with
        | ']' :: r => some (.jarr [], r)
        | _ => jParseArr fuel rest []
      else if c = '{' then
        match jSkipWS rest with
        | '}' :: r => some (.jobj [], r)
        | _ => jParseObj fuel rest []
      else
        match jParseNum (c :: rest) with
        | some (v, r) => some (.jnum v, r)
        | none => none

def jParseArr (fuel : Nat) (l : List Char) (acc : List JVal) :
    Option (JVal × List Char) :=
  match fuel with
  | 0 => none
  | fuel + 1 =>
    match jParseVal fuel l with
    | none => none
    | some (v, r) =>
      match jSkipWS r with
      | ',' :: r2 => jParseArr fuel r2 (v :: acc)
      | ']' :: r2 => some (.jarr (v :: acc).reverse, r2)
      | _ => none

def jParseObj (fuel : Nat) (l : List Char) (acc : List (String × JVal)) :
    Option (JVal × List Char) :=
  match fuel with
  | 0 => none
  | fuel + 1 =>
    match jSkipWS l with
    | '"' :: r =>
      match jParseStrAux (r.length + 1) r [] with
      | none => none
      | some (k, r2) =>
        match jSkipWS r2 with
        | ':' :: r3 =>
          match jParseVal fuel r3 with
          | none => none
          | some (v, r4) =>
            match jSkipWS r4 with
            | ',' :: r5 => jParseObj fuel r5 ((k, v) :: acc)
            | '}' :: r5 => some (.jobj ((k, v) :: acc).reverse, r5)
            | _ => none
        | _ => none
    | _ => none

end

/-- `json.loads` / `json.load`: `none` models `JSONDecodeError`. -/
def jsonParse (s : String) : Option JVal :=
  match jParseVal (s.data.length + 1) s.data with
  | some (v, rest) => if jSkipWS rest = [] then some v else none
  | none => none

def hex4 (n : Nat) : String :=
  let ds := Nat.toDigits 16 n
  String.mk (List.replicate (4 - ds.length) '0') ++ String.mk ds

def jEscChar (c : Char) : String :=
  if c = '"' then "\\\""
  else if c = '\\' then "\\\\"
  else if c = '\n' then "\\n"
  else if c = '\t' then "\\t"
  else if c = '\r' then "\\r"
  else if c.toNat < 32 then "\\u" ++ hex4 c.toNat
  else String.mk [c]

def jStrLit (s : String) : String :=
  "\"" ++ joinSep "" (s.data.map jEscChar) ++ "\""

def jIndent (n : Nat) : String := String.mk (List.replicate n ' ')

def jNumStr (n : PyQ) : String :=
  if n.isInt then toString n.floorI else roundTrimmed n 17

mutual

/-- `json.dumps(..., ensure_ascii=False, indent=2)` at indent level `ind`. -/
def jDump (ind : Nat) : JVal → String
  | .jnull => "null"
  | .jbool true => "true"
  | .jbool false => "false"
  | .jnum n => jNumStr n
  | .jstr s => jStrLit s
  | .jarr [] => "[]"
  | .jarr (x :: xs) =>
    "[\n" ++ joinSep ",\n" (jDumpItems (ind + 2) (x :: xs)) ++ "\n" ++ jIndent ind ++ "]"
  | .jobj [] => "\x7b\x7d"
  | .jobj (kv :: kvs) =>
    "\x7b\n" ++ joinSep ",\n" (jDumpPairs (ind + 2) (kv :: kvs)) ++ "\n" ++ jIndent ind ++ "\x7d"

def jDumpItems (ind : Nat) : List JVal → List String
  | [] => []
  | v :: vs => (jIndent ind ++ jDump ind v) :: jDumpItems ind vs

def jDumpPairs (ind : Nat) : List (String × JVal) → List String
  | [] => []
  | (k, v) :: kvs => (jIndent ind ++ jStrLit k ++ ": " ++ jDump ind v) :: jDumpPairs ind kvs

end

def jsonDumps (j : JVal) : String := jDump 0 j

/-! ## CSV model (`csv.reader` over the file's lines)

Quoting rules of the `csv` module are not modelled (no claim evaluates
quoted fields): a row is the comma-split of a line, a blank line is an
empty row, a trailing newline produces no extra row. -/

def csvRows (content : String) : List (List String) :=
  if content = "" then []
  else
    let lines := pySplit content "\n"
    let lines := match lines.reverse with
      | "" :: rest => rest.reverse
      | _ => lines
    lines.map (fun ln => if ln = "" then [] else pySplit ln ",")


/-! ## Confined file tool (`FileTool`)

Paths are lists of components of an absolute POSIX path (`[]` is `/`).
`FileTool.__init__`'s `base_path` is modelled as an already-canonical
component list (the constructor calls `.absolute()` on it).
`Path.resolve()` is modelled lexically: `.` components vanish, `..`
pops one component (staying at the root when already there); symlinks
are not modelled.  The filesystem state `FileSys` is explicit; `stat`
metadata not represented in it (timestamps, permission bits, directory
sizes) is modelled by fixed values — no claim depends on those. -/

abbrev FPath := List String

def resolveStep (acc : FPath) (c : String) : FPath :=
  if c = ".." then acc.dropLast
  else if c = "." then acc
  else acc ++ [c]

def resolvePath (p : FPath) : FPath := p.foldl resolveStep []

def pathEscapeText (path : String) : String := "访问路径超出允许范围: " ++ path

/-- `FileTool._get_safe_path`: empty path or `.` resolves to the base;
a relative path is joined to the base; the result is canonicalized and
must have the base as a prefix (`relative_to`), else `PermissionError`
(the `PathEscape` of the specification). -/
def getSafePath (base : FPath) (path : String) : Except String FPath :=
  if path = "" ∨ path = "." then .ok base
  else
    let comps := (pySplit path "/").filter (fun c => !(c == "") && !(c == "."))
    let target :=
      if strStartsWith path "/" then resolvePath comps
      else resolvePath (base ++ comps)
    if base.isPrefixOf target then .ok target
    else .error (pathEscapeText path)

/-- `self.restricted_paths` of `FileTool.__init__`: `/`, `/Windows`,
`/System`, `/etc`, `/usr`, `home/Desktop`, `home/Documents` (the home
directory is a parameter of the model). -/
def restrictedPaths (home : FPath) : List FPath :=
  [[], ["Windows"], ["System"], ["etc"], ["usr"],
   home ++ ["Desktop"], home ++ ["Documents"]]

/-- `FileTool._is_path_safe`: the path must not be equal to or below any
restricted path (`relative_to` succeeding means "below or equal"). -/
def isPathSafe (home : FPath) (p : FPath) : Bool :=
  (restrictedPaths home).all (fun r => !(r.isPrefixOf p))

/-- `FileTool.validate_input` on kwargs `operation`/`path`: the
operation must be a nonempty string; a nonempty path must resolve
inside the sandbox (`_get_safe_path`, any exception rejects) and pass
`_is_path_safe`. -/
def fileValidateInput (base home : FPath) (operation path : String) : Bool :=
  if operation = "" then false
  else if path = "" then true
  else
    match getSafePath base path with
    | .error _ => false
    | .ok full => isPathSafe home full

structure FileSys where
  dirs : List FPath
  files : List (FPath × String)
  deriving DecidableEq, Repr

def isDirB (fs : FileSys) (p : FPath) : Bool := fs.dirs.contains p

def findFile (fs : FileSys) (p : FPath) : Option String :=
  (fs.files.find? (fun e => e.1 == p)).map (fun e => e.2)

def isFileB (fs : FileSys) (p : FPath) : Bool := (findFile fs p).isSome

def pathExistsB (fs : FileSys) (p : FPath) : Bool := isDirB fs p || isFileB fs p

/-- `str(Path)` for an absolute path. -/
def pathStr (p : FPath) : String := "/" ++ joinSep "/" p

def lastName (p : FPath) : String := p.getLastD ""

/-- `PurePath.suffix`: the last `.`-suffix of the final component, empty
when the dot is leading or trailing. -/
def pathSuffix (name : String) : String :=
  match name.data.reverse.findIdx? (fun c => c == '.') with
  | none => ""
  | some rk =>
    let i := name.data.length - 1 - rk
    if 0 < i ∧ rk ≠ 0 then String.mk (name.data.drop i) else ""

def fileSuffix (full : FPath) : String := asciiLower (pathSuffix (lastName full))

/-- `FileTool._read_file`: confinement check, existence and type checks,
10 MB source-size cap, then the extension-dispatched decoders; the
plain-text fallback reads at most 5000 characters and appends a
truncation marker when the cap was reached. -/
def readFile (base : FPath) (fs : FileSys) (filepath : String) : String :=
  match getSafePath base filepath with
  | .error _ => "没有权限读取文件: " ++ filepath
  | .ok full =>
    if !(pathExistsB fs full) then "文件不存在: " ++ filepath
    else if !(isFileB fs full) then "不是文件: " ++ filepath
    else
      let content := (findFile fs full).getD ""
      if utf8Len content > 10 * 1024 * 1024 then "文件过大（超过10MB）: " ++ filepath
      else
        let ext := fileSuffix full
        if ext = ".json" then
          match jsonParse content with
          | some j => "JSON内容:\n" ++ jsonDumps j
          | none => "读取文件失败: Expecting value: line 1 column 1 (char 0)"
        else if ext = ".csv" then
          let rows := csvRows content
          if rows = [] then "CSV文件为空"
          else
            "CSV内容 (前5行/共" ++ toString rows.length ++ "行):\n" ++
              joinSep "\n" ((rows.take 5).map (joinSep ","))
        else if ext = ".xlsx" ∨ ext = ".xls" then
          "无法读取Excel文件，可能需要安装openpyxl或xlrd"
        else
          let c := strTake content 5000
          let c := if strLen c = 5000 then c ++ "\n...(内容截断，只显示前5000字符)" else c
          "文件内容:\n" ++ c

def insertFile (fs : FileSys) (p : FPath) (content : String) : FileSys :=
  ⟨fs.dirs, (p, content) :: fs.files.filter (fun e => !(e.1 == p))⟩

/-- `FileTool._write_file`: confinement check, the parent directory must
exist, then the file is created/overwritten with the exact content.
`open('w')` on a directory target or under a file "parent" raises the
errors rendered by the catch-all branch. -/
def writeFile (base : FPath) (fs : FileSys) (filepath content : String) :
    FileSys × String :=
  match getSafePath base filepath with
  | .error _ => (fs, "没有权限写入文件: " ++ filepath)
  | .ok full =>
    let parent := full.dropLast
    if !(pathExistsB fs parent) then (fs, "父目录不存在: " ++ pathStr parent)
    else if !(isDirB fs parent) then
      (fs, "写入文件失败: Not a directory: " ++ pathStr parent)
    else if isDirB fs full then
      (fs, "写入文件失败: Is a directory: " ++ pathStr full)
    else (insertFile fs full content, "文件保存成功: " ++ filepath)

def childDirNames (fs : FileSys) (p : FPath) : List String :=
  (fs.dirs.filter (fun d => d.length == p.length + 1 && p.isPrefixOf d)).map lastName

def childFileEntries (fs : FileSys) (p : FPath) : List (String × Nat) :=
  (fs.files.filter (fun e => e.1.length == p.length + 1 && p.isPrefixOf e.1)).map
    (fun e => (lastName e.1, utf8Len e.2))

/-- `FileTool._format_size`: divide by 1024 through B/KB/MB/GB, print
with one fractional digit. -/
def formatSizeAux : PyQ → List String → String
  | q, [] => fixedFrac q 1 ++ " TB"
  | q, u :: us =>
    if PyQ.blt q ⟨1024, 1⟩ then fixedFrac q 1 ++ " " ++ u
    else formatSizeAux (q.div ⟨1024, 1⟩) us

def formatSize (n : Nat) : String :=
  formatSizeAux ⟨Int.ofNat n, 1⟩ ["B", "KB", "MB", "GB"]

def overflowLine (total : Nat) : String :=
  "\n... 共 " ++ toString total ++ " 个项目，只显示前20个"

/-- The result-list assembly of `FileTool._list_directory`: header, then
(at most 10) directory entries under a `目录:` banner, then (at most 10)
file entries under a `文件:` banner, then the overflow line exactly when
the total entry count exceeds 20. -/
def listingComponents (dirpath : String) (dirEntries fileEntries : List String) :
    List String :=
  ["目录: " ++ dirpath]
  ++ (if dirEntries.isEmpty then [] else "\n📁 目录:" :: dirEntries.take 10)
  ++ (if fileEntries.isEmpty then [] else "\n📄 文件:" :: fileEntries.take 10)
  ++ (if dirEntries.length + fileEntries.length > 20 then
        [overflowLine (dirEntries.length + fileEntries.length)] else [])

/-- `FileTool._list_directory`.  `iterdir` order is OS-dependent and is
modelled as directories (in `fs.dirs` order) followed by files. -/
def listDirectory (base : FPath) (fs : FileSys) (dirpath : String) : String :=
  let dp := if dirpath = "" then "." else dirpath
  match getSafePath base dp with
  | .error _ => "没有权限访问目录: " ++ dp
  | .ok full =>
    if !(pathExistsB fs full) then "目录不存在: " ++ dp
    else if !(isDirB fs full) then "不是目录: " ++ dp
    else
      let ds := childDirNames fs full
      let fls := childFileEntries fs full
      if ds.isEmpty ∧ fls.isEmpty then "目录为空: " ++ dp
      else
        joinSep "\n"
          (listingComponents dp
            (ds.map (fun n => "📁 " ++ n ++ "/"))
            (fls.map (fun e => "📄 " ++ e.1 ++ " (" ++ formatSize e.2 ++ ")")))

def supportedExtensions : List (String × String) :=
  [(".txt", "文本文件"), (".json", "JSON文件"), (".csv", "CSV文件"),
   (".xlsx", "Excel文件"), (".xls", "Excel文件"), (".py", "Python文件"),
   (".md", "Markdown文件"), (".log", "日志文件")]

def extDescr (ext : String) : String :=
  match supportedExtensions.find? (fun e => e.1 == ext) with
  | some e => e.2
  | none => "未知文件"

/-- `FileTool._get_file_info`.  Timestamps and permission bits are not
part of `FileSys` and are modelled by fixed values (epoch 0, `644` for
files, `755` for directories); a directory's `st_size` is modelled as
4096. -/
def fileInfo (base : FPath) (fs : FileSys) (filepath : String) : String :=
  match getSafePath base filepath with
  | .error _ => "没有权限访问文件: " ++ filepath
  | .ok full =>
    if !(pathExistsB fs full) then "文件不存在: " ++ filepath
    else
      let size := match findFile fs full with
        | some c => utf8Len c
        | none => 4096
      let lines :=
        ["📁 文件: " ++ filepath,
         "📊 大小: " ++ formatSize size,
         "📅 创建: 1970-01-01 00:00:00",
         "✏️  修改: 1970-01-01 00:00:00",
         "👀 访问: 1970-01-01 00:00:00",
         "🔢 模式: " ++ (if isFileB fs full then "644" else "755")]
      let lines :=
        if isFileB fs full then lines ++ ["📄 类型: " ++ extDescr (fileSuffix full)]
        else lines
      joinSep "\n" lines

/-- `FileTool._create_directory`: report an existing target, else
`mkdir(parents=True)` — all missing ancestors are created; an ancestor
that is a regular file raises the error rendered by the catch-all. -/
def createDirectory (base : FPath) (fs : FileSys) (dirpath : String) :
    FileSys × String :=
  match getSafePath base dirpath with
  | .error _ => (fs, "没有权限创建目录: " ++ dirpath)
  | .ok full =>
    if pathExistsB fs full then (fs, "目录已存在: " ++ dirpath)
    else
      let ancestors := (List.range (full.length + 1)).map (fun k => full.take k)
      if ancestors.any (fun a => isFileB fs a) then
        (fs, "创建目录失败: Not a directory")
      else
        (⟨ancestors.filter (fun a => !(fs.dirs.contains a)) ++ fs.dirs, fs.files⟩,
         "目录创建成功: " ++ dirpath)

/-- `fnmatch.fnmatch` on `*`/`?` patterns (character classes are not
modelled; no claim uses them). -/
def fnmatchAux (fuel : Nat) (pat s : List Char) : Bool :=
  match fuel with
  | 0 => false
  | fuel + 1 =>
    match pat, s with
    | [], [] => true
    | '*' :: pt, _ =>
      fnmatchAux fuel pt s ||
      (match s with
       | [] => false
       | _ :: st => fnmatchAux fuel pat st)
    | '?' :: pt, _ :: st => fnmatchAux fuel pt st
    | c :: pt, d :: st => c = d && fnmatchAux fuel pt st
    | _, _ => false

def fnmatchB (name pattern : String) : Bool :=
  fnmatchAux ((pattern.data.length + 1) * (name.data.length + 1) + 1)
    pattern.data name.data

/-- `FileTool._search_files`: recursive name matching below the resolved
directory, ignoring files more than 3 directory levels down, collecting
at most 20 matches (the source breaks out of `os.walk` at 20; the
per-directory granularity of that break and the walk order are modelled
as `fs.files` order truncated at 20), displaying at most 10. -/
def searchFiles (base : FPath) (fs : FileSys) (dirpath pattern : String) : String :=
  let dp := if dirpath = "" then "." else dirpath
  match getSafePath base dp with
  | .error _ => "没有权限搜索目录: " ++ dp
  | .ok full =>
    if !(pathExistsB fs full) then "目录不存在: " ++ dp
    else if !(isDirB fs full) then "不是目录: " ++ dp
    else
      let ms := ((fs.files.filter (fun e =>
        full.isPrefixOf e.1 && e.1.dropLast.length ≤ full.length + 3 &&
        fnmatchB (lastName e.1) pattern)).map (fun e => e.1)).take 20
      if ms.isEmpty then
        "在 " ++ dp ++ " 中未找到匹配 \x27" ++ pattern ++ "\x27 的文件"
      else
        let header := "在 " ++ dp ++ " 中找到 " ++ toString ms.length ++
          " 个匹配 \x27" ++ pattern ++ "\x27 的文件:"
        let shown := (ms.take 10).enum.map
          (fun pr => toString (pr.1 + 1) ++ ". " ++ joinSep "/" (pr.2.drop full.length))
        let tailLines :=
          if ms.length > 10 then
            ["... 还有 " ++ toString (ms.length - 10) ++ " 个文件未显示"]
          else []
        joinSep "\n" (header :: shown ++ tailLines)

/-- `FileTool._check_exists`: never raises for absence; a confinement
failure is rendered by its generic handler. -/
def checkExists (base : FPath) (fs : FileSys) (path : String) : String :=
  match getSafePath base path with
  | .error m => "检查失败: " ++ m
  | .ok full =>
    if pathExistsB fs full then
      if isFileB fs full then "文件存在: " ++ path else "目录存在: " ++ path
    else "不存在: " ++ path

def fileHelpText : String :=
  "\n可用操作:\n1. 读取文件: operation=\"read\", path=\"文件名\"\n2. 写入文件: operation=\"write\", path=\"文件名\", content=\"内容\"\n3. 列出目录: operation=\"list\", path=\"目录路径\" (可选)\n4. 文件信息: operation=\"info\", path=\"文件路径\"\n5. 创建目录: operation=\"create_dir\", path=\"目录路径\"\n6. 搜索文件: operation=\"search\", path=\"目录路径\", pattern=\"*.py\"\n7. 检查存在: operation=\"exists\", path=\"路径\"\n\n示例:\n- 读取data.txt: operation=\"read\", path=\"data.txt\"\n- 列出当前目录: operation=\"list\"\n- 创建test目录: operation=\"create_dir\", path=\"test\"\n"

/-- `FileTool.execute`: lower-case and trim the operation name, dispatch
to the seven handlers (each of which resolves its path through
`_get_safe_path` before touching the filesystem). -/
def fileExecute (base : FPath) (fs : FileSys)
    (operation path content pattern : String) : FileSys × String :=
  let op := strTrim (asciiLower operation)
  if op = "read" ∨ op = "读取" then (fs, readFile base fs path)
  else if op = "write" ∨ op = "写入" ∨ op = "保存" then writeFile base fs path content
  else if op = "list" ∨ op = "列出" ∨ op = "ls" then (fs, listDirectory base fs path)
  else if op = "info" ∨ op = "信息" ∨ op = "详情" then (fs, fileInfo base fs path)
  else if op = "create_dir" ∨ op = "创建目录" ∨ op = "mkdir" then
    createDirectory base fs path
  else if op = "search" ∨ op = "搜索" ∨ op = "查找" then
    (fs, searchFiles base fs path pattern)
  else if op = "exists" ∨ op = "存在" ∨ op = "检查" then (fs, checkExists base fs path)
  else if op = "help" ∨ op = "帮助" then (fs, fileHelpText)
  else (fs, "不支持的操作: " ++ op ++ "\n" ++ fileHelpText)

/-- `BaseTool.__call__` applied to the file tool with kwargs
`operation`/`path`/`content`/`pattern`. -/
def fileToolCall (base home : FPath) (fs : FileSys)
    (operation path content pattern : String) : FileSys × String :=
  if fileValidateInput base home operation path then
    fileExecute base fs operation path content pattern
  else (fs, "工具 file_tool 输入验证失败")

/-- The registry entry of `ToolFactory._register_tools` for the file
tool: `lambda x: file_tool.execute(operation="list", path=x)` (with the
path defaulting to the empty string when `x` is empty) — `execute`
directly, no `validate_input`. -/
def fileRegistryDispatch (base : FPath) (fs : FileSys) (x : String) : String :=
  (fileExecute base fs "list" x "" "*").2

/-- Does the base consist only of ordinary components (no `.`/`..`/empty
ones)?  This holds of any canonical absolute path, matching
`Path(base_path).absolute()` on an already-canonical argument. -/
def cleanComponents (b : FPath) : Bool :=
  b.all (fun c => !(c == "") && !(c == ".") && !(c == ".."))


/-! ## Web tool (`WebTool`)

The HTTP transport (`requests`) is an external collaborator, modelled
as an oracle `String → HttpResp`; a `WebOutcome` additionally counts
how many network requests the operation issued.  HTML processing
(BeautifulSoup) is approximated: the fetched body is used as the page
text (script/style stripping, whitespace collapsing and title
extraction are not modelled), anchor/image references are extracted by
scanning for `href="`/`src="` attributes.  No claim depends on those
renderings — the claims about this tool concern validation order and
request counts. -/

structure HttpResp where
  status : Nat
  text : String
  deriving DecidableEq, Repr

structure WebOutcome where
  requests : Nat
  output : String
  deriving DecidableEq, Repr

/-- `dangerous_domains` of `WebTool.validate_input`; the test is a plain
substring check over the whole URL. -/
def dangerousDomains : List String := ["localhost", "127.0.0.1", "192.168.", "10."]

def urlHitsDenyList (url : String) : Bool :=
  dangerousDomains.any (fun d => containsSub url d)

/-- `WebTool.validate_input` on kwargs `operation`/`url`: nonempty
operation; a nonempty URL must use an explicit http/https scheme and
must not contain any deny-listed host pattern. -/
def webValidateInput (operation url : String) : Bool :=
  if operation = "" then false
  else if url = "" then true
  else if !(strStartsWith url "http://" || strStartsWith url "https://") then false
  else if urlHitsDenyList url then false
  else true

def truncAt (s : String) (n : Nat) (marker : String) : String :=
  if strLen s > n then strTake s n ++ marker else s

/-- `WebTool._fetch_webpage`: one GET; non-2xx raises `HTTPError`
(rendered by the handler); on success the page text is capped at 2000
characters with a truncation marker. -/
def fetchWebpage (http : String → HttpResp) (url : String) : WebOutcome :=
  let r := http url
  if 400 ≤ r.status then
    ⟨1, "HTTP错误: " ++ toString r.status ++ " - " ++ url⟩
  else
    let text := if strLen r.text > 2000 then
        strTake r.text 2000 ++ "\n...(内容截断，只显示前2000字符)"
      else r.text
    ⟨1, joinSep "\n"
      ["🌐 网页: " ++ url,
       "📄 标题: 无标题",
       "📊 状态: " ++ toString r.status,
       "📏 长度: " ++ toString (strLen r.text) ++ " 字符",
       "\n📝 内容摘要:\n" ++ text]⟩

/-- Scan for `key` followed by a double-quoted value; returns the
values. -/
def extractAttrVals (key : List Char) (fuel : Nat) (l : List Char) :
    List (List Char) :=
  match fuel with
  | 0 => []
  | fuel + 1 =>
    match l with
    | [] => []
    | c :: tl =>
      if key.isPrefixOf (c :: tl) then
        let rest := (c :: tl).drop key.length
        let v := rest.takeWhile (fun ch => !(ch == '"'))
        v :: extractAttrVals key fuel (rest.drop v.length)
      else extractAttrVals key fuel tl

/-- `scheme://host` prefix of a URL, for resolving root-relative
references (`requests.compat.urljoin(url, href)` on an href starting
with `/`). -/
def urlRoot (url : String) : String :=
  match afterFirstSub "//".data url.data with
  | none => url
  | some rest =>
    let host := rest.takeWhile (fun ch => !(ch == '/'))
    String.mk (url.data.take (url.data.length - rest.length)) ++ String.mk host

/-- `WebTool._extract_links`: root-relative references are resolved
against the request URL, other non-http(s) references are discarded;
at most 10 are displayed with an overflow count.  (Anchor text is not
modelled; each link renders as its reference alone.) -/
def extractLinksOp (http : String → HttpResp) (url : String) : WebOutcome :=
  let r := http url
  if 400 ≤ r.status then ⟨1, "提取链接失败: HTTP " ++ toString r.status⟩
  else
    let hrefs := (extractAttrVals "href=\"".data (r.text.data.length + 1)
      r.text.data).map String.mk
    let links := hrefs.filterMap (fun h =>
      if strStartsWith h "/" then some (urlRoot url ++ h)
      else if strStartsWith h "http://" || strStartsWith h "https://" then some h
      else none)
    if links.isEmpty then ⟨1, "未找到链接"⟩
    else
      let shown := (links.take 10).enum.map
        (fun pr => toString (pr.1 + 1) ++ ". " ++ pr.2)
      let tailLines :=
        if links.length > 10 then
          ["... 还有 " ++ toString (links.length - 10) ++ " 个链接未显示"]
        else []
      ⟨1, joinSep "\n"
        (("在 " ++ url ++ " 中找到 " ++ toString links.length ++ " 个链接:") ::
          shown ++ tailLines)⟩

/-- `WebTool._extract_images`: like links, additionally keeping
`data:image` references; at most 5 displayed. -/
def extractImagesOp (http : String → HttpResp) (url : String) : WebOutcome :=
  let r := http url
  if 400 ≤ r.status then ⟨1, "提取图片失败: HTTP " ++ toString r.status⟩
  else
    let srcs := (extractAttrVals "src=\"".data (r.text.data.length + 1)
      r.text.data).map String.mk
    let images := srcs.filterMap (fun h =>
      if strStartsWith h "/" then some (urlRoot url ++ h)
      else if strStartsWith h "http://" || strStartsWith h "https://" ||
          strStartsWith h "data:image" then some h
      else none)
    if images.isEmpty then ⟨1, "未找到图片"⟩
    else
      let shown := (images.take 5).enum.map
        (fun pr => toString (pr.1 + 1) ++ ". 无描述: " ++ pr.2)
      let tailLines :=
        if images.length > 5 then
          ["... 还有 " ++ toString (images.length - 5) ++ " 张图片未显示"]
        else []
      ⟨1, joinSep "\n"
        (("在 " ++ url ++ " 中找到 " ++ toString images.length ++ " 张图片:") ::
          shown ++ tailLines)⟩

/-- `WebTool._call_api`: an unsupported method returns before any
request is issued; otherwise one request, JSON responses pretty-printed
and capped at 2000 characters, other responses capped at 1000. -/
def callApiOp (http : String → HttpResp) (url method : String) : WebOutcome :=
  let m := asciiUpper (strTrim method)
  if m = "GET" ∨ m = "POST" ∨ m = "PUT" ∨ m = "DELETE" then
    let r := http url
    if 400 ≤ r.status then ⟨1, "API调用失败: HTTP " ++ toString r.status⟩
    else
      match jsonParse r.text with
      | some j =>
        ⟨1, joinSep "\n"
          ["🌐 API: " ++ url, "📤 方法: " ++ m,
           "📊 状态: " ++ toString r.status,
           "\n📄 响应:\n" ++ truncAt (jsonDumps j) 2000 "\n...(JSON截断)"]⟩
      | none =>
        ⟨1, joinSep "\n"
          ["🌐 API: " ++ url, "📤 方法: " ++ m,
           "📊 状态: " ++ toString r.status,
           "\n📄 响应:\n" ++ truncAt r.text 1000 "\n...(文本截断)"]⟩
  else ⟨0, "不支持的HTTP方法: " ++ m⟩

/-- Python type name of a JSON value (`type(value).__name__`).
(`json` distinguishes int/float by the literal's form; the model uses
integrality of the value, which agrees on every input considered.) -/
def jTypeName : JVal → String
  | .jnull => "NoneType"
  | .jbool _ => "bool"
  | .jnum n => if n.isInt then "int" else "float"
  | .jstr _ => "str"
  | .jarr _ => "list"
  | .jobj _ => "dict"

def bumpCount (t : String) : List (String × Nat) → List (String × Nat)
  | [] => [(t, 1)]
  | (k, n) :: rest => if k = t then (k, n + 1) :: rest else (k, n) :: bumpCount t rest

/-- `WebTool._analyze_json`. -/
def analyzeJson : JVal → String
  | .jobj kvs =>
    let types := kvs.foldl (fun acc kv => bumpCount (jTypeName kv.2) acc) []
    "对象 (" ++ toString kvs.length ++ "个键), 类型: " ++
      joinSep ", " (types.map (fun e => e.1 ++ ":" ++ toString e.2))
  | .jarr [] => "空数组"
  | .jarr (x :: xs) =>
    "数组 (" ++ toString (xs.length + 1) ++ "个元素), 示例类型: " ++ jTypeName x
  | v => "值类型: " ++ jTypeName v

/-- `WebTool._parse_json`: no request; malformed input yields the
`JSONDecodeError` rendering with no partial structure. -/
def parseJsonOp (jsonStr : String) : String :=
  match jsonParse jsonStr with
  | none => "JSON解析错误: Expecting value"
  | some j =>
    joinSep "\n"
      ["📄 JSON解析结果:",
       "📊 统计: " ++ analyzeJson j,
       "\n🔍 内容:\n" ++ truncAt (jsonDumps j) 2000 "\n...(JSON截断)"]

def webHelpText : String :=
  "\n可用操作:\n1. 获取网页: operation=\"fetch\", url=\"https://example.com\"\n2. 提取链接: operation=\"links\", url=\"https://example.com\"\n3. 提取图片: operation=\"images\", url=\"https://example.com\"\n4. 调用API: operation=\"api\", url=\"https://api.example.com\", method=\"GET\", data=\x7b\x7b\x7d\x7d (可选)\n5. 解析JSON: operation=\"parse_json\", json_str=\x27\x7b\x7b\"key\": \"value\"\x7d\x7d\x27\n\n示例:\n- 获取网页: operation=\"fetch\", url=\"https://example.com\"\n- 调用API: operation=\"api\", url=\"https://api.example.com/data\", method=\"GET\"\n- 解析JSON: operation=\"parse_json\", json_str=\x27\x7b\x7b\"name\": \"test\"\x7d\x7d\x27\n"

/-- `WebTool.execute`: lower-case and trim the operation, dispatch. -/
def webExecute (http : String → HttpResp)
    (operation url method jsonStr : String) : WebOutcome :=
  let op := strTrim (asciiLower operation)
  if op = "fetch" ∨ op = "获取" ∨ op = "抓取" then fetchWebpage http url
  else if op = "links" ∨ op = "链接" ∨ op = "提取链接" then extractLinksOp http url
  else if op = "images" ∨ op = "图片" ∨ op = "提取图片" then extractImagesOp http url
  else if op = "api" ∨ op = "调用api" then callApiOp http url method
  else if op = "parse_json" ∨ op = "解析json" then ⟨0, parseJsonOp jsonStr⟩
  else if op = "help" ∨ op = "帮助" then ⟨0, webHelpText⟩
  else ⟨0, "不支持的操作: " ++ op ++ "\n" ++ webHelpText⟩

/-- `BaseTool.__call__` applied to the web tool: `validate_input`
rejects before `execute` runs, so no request is issued on rejection. -/
def webToolCall (http : String → HttpResp)
    (operation url method jsonStr : String) : WebOutcome :=
  if webValidateInput operation url then webExecute http operation url method jsonStr
  else ⟨0, "工具 web_tool 输入验证失败"⟩

/-- The registry entry of `ToolFactory._register_tools` for the web
tool: `lambda x: web_tool.execute(operation="fetch", url=x)` —
`execute` directly, no `validate_input`. -/
def webRegistryDispatch (http : String → HttpResp) (x : String) : WebOutcome :=
  webExecute http "fetch" x "GET" ""


/-! ## Time tool (`TimeTool`)

The current instant is an explicit parameter `PyDateTime` (days since
the Unix epoch plus a time of day); `datetime.utcnow` and timezone
conversion via `pytz` are modelled by the same clock (only labels
differ) — no claim inspects those values.  Calendar arithmetic uses the
standard civil-from-days/days-from-civil algorithms. -/

structure PyDateTime where
  days : Int
  hh : Nat
  mi : Nat
  ss : Nat
  deriving DecidableEq, Repr

def daysFromCivil (y m d : Int) : Int :=
  let y1 := y - (if m ≤ 2 then 1 else 0)
  let era := (if 0 ≤ y1 then y1 else y1 - 399) / 400
  let yoe := y1 - era * 400
  let doy := (153 * (m + (if 2 < m then -3 else 9)) + 2) / 5 + d - 1
  let doe := yoe * 365 + yoe / 4 - yoe / 100 + doy
  era * 146097 + doe - 719468

def civilFromDays (z0 : Int) : Int × Int × Int :=
  let z := z0 + 719468
  let era := (if 0 ≤ z then z else z - 146096) / 146097
  let doe := z - era * 146097
  let yoe := (doe - doe / 1460 + doe / 36524 - doe / 146096) / 365
  let y := yoe + era * 400
  let doy := doe - (365 * yoe + yoe / 4 - yoe / 100)
  let mp := (5 * doy + 2) / 153
  let d := doy - (153 * mp + 2) / 5 + 1
  let m := mp + (if mp < 10 then 3 else -9)
  (y + (if m ≤ 2 then 1 else 0), m, d)

/-- `datetime.weekday()`: Monday = 0.  Day 0 (1970-01-01) was a
Thursday. -/
def weekdayOf (z : Int) : Nat := ((z + 3) % 7).toNat

def chineseWeekdays : List String :=
  ["星期一", "星期二", "星期三", "星期四", "星期五", "星期六", "星期日"]

def chineseWeekday (w : Nat) : String := chineseWeekdays.getD w "星期一"

def fmtYMDCn (z : Int) : String :=
  let c := civilFromDays z
  natPad c.1.toNat 4 ++ "年" ++ natPad c.2.1.toNat 2 ++ "月" ++
    natPad c.2.2.toNat 2 ++ "日"

def fmtYMDDash (z : Int) : String :=
  let c := civilFromDays z
  natPad c.1.toNat 4 ++ "-" ++ natPad c.2.1.toNat 2 ++ "-" ++ natPad c.2.2.toNat 2

def fmtHMS (t : PyDateTime) : String :=
  natPad t.hh 2 ++ ":" ++ natPad t.mi 2 ++ ":" ++ natPad t.ss 2

/-- `TimeTool._format_time_detail`. -/
def formatTimeDetail (t : PyDateTime) (label : String) : String :=
  label ++ ":\n  📅 " ++ fmtYMDDash t.days ++ "\n  ⏰ " ++ fmtHMS t ++
    "\n  📆 " ++ chineseWeekday (weekdayOf t.days)

def timezonesTable : List (String × String) :=
  [("北京", "Asia/Shanghai"), ("上海", "Asia/Shanghai"), ("广州", "Asia/Shanghai"),
   ("深圳", "Asia/Shanghai"), ("纽约", "America/New_York"), ("伦敦", "Europe/London"),
   ("东京", "Asia/Tokyo"), ("巴黎", "Europe/Paris"), ("悉尼", "Australia/Sydney"),
   ("UTC", "UTC")]

/-- `TimeTool._handle_timezone_query` (timezone conversion itself not
modelled: the same clock is shown under the matched label). -/
def handleTimezoneQuery (now : PyDateTime) (q : String) : String :=
  match timezonesTable.find? (fun e => containsSub q e.1) with
  | some e => formatTimeDetail now (e.1 ++ "时间")
  | none => "支持时区: " ++ joinSep ", " (timezonesTable.map (fun e => e.1))

/-- After a skipped-whitespace gap, match each part in order (the
`\s*`-separated literal parts of the day-offset regexes). -/
def matchPartsAfterWS : List (List Char) → List Char → Bool
  | [], _ => true
  | p :: ps, l =>
    let r := l.dropWhile isPyWS
    p.isPrefixOf r && matchPartsAfterWS ps (r.drop p.length)

/-- `re.search((\d+)\s*part1\s*part2..., q)`: the digits of the first
digit run followed by the parts. -/
def findDigitsThen (parts : List (List Char)) : List Char → Option Nat
  | [] => none
  | c :: tl =>
    if isAsciiDigit c then
      let run := (c :: tl).takeWhile isAsciiDigit
      if matchPartsAfterWS parts ((c :: tl).drop run.length) then some (digitsVal run)
      else findDigitsThen parts tl
    else findDigitsThen parts tl

/-- `TimeTool._calculate_future_date`. -/
def calcFutureDate (now : PyDateTime) (q : String) : String :=
  let ds := match findDigitsThen ["天后".data] q.data with
    | some n => some n
    | none => findDigitsThen ["days".data, "after".data] q.data
  match ds with
  | some n =>
    let z := now.days + Int.ofNat n
    toString n ++ "天后是: " ++ fmtYMDCn z ++ " " ++ chineseWeekday (weekdayOf z)
  | none => "格式错误，请使用 \x273天后\x27 格式"

/-- `TimeTool._calculate_past_date`. -/
def calcPastDate (now : PyDateTime) (q : String) : String :=
  let ds := match findDigitsThen ["天前".data] q.data with
    | some n => some n
    | none => findDigitsThen ["days".data, "ago".data] q.data
  match ds with
  | some n =>
    let z := now.days - Int.ofNat n
    toString n ++ "天前是: " ++ fmtYMDCn z ++ " " ++ chineseWeekday (weekdayOf z)
  | none => "格式错误，请使用 \x273天前\x27 格式"

/-- One attempt of the date regex (four digits, a dash-or-slash
separator, one or two digits, separator, one or two digits) at the head
of `l`; returns the matched text and the rest. -/
def tryDateAt (l : List Char) : Option (List Char × List Char) :=
  match l with
  | a :: b :: c :: d :: s1 :: rest =>
    if isAsciiDigit a ∧ isAsciiDigit b ∧ isAsciiDigit c ∧ isAsciiDigit d ∧
        (s1 = '-' ∨ s1 = '/') then
      let mrun := rest.takeWhile isAsciiDigit
      if mrun.length = 1 ∨ mrun.length = 2 then
        match rest.drop mrun.length with
        | s2 :: rest2 =>
          if s2 = '-' ∨ s2 = '/' then
            let drun := (rest2.takeWhile isAsciiDigit).take 2
            if drun = [] then none
            else some ([a, b, c, d, s1] ++ mrun ++ [s2] ++ drun,
                       rest2.drop drun.length)
          else none
        | [] => none
      else none
    else none
  | _ => none

/-- `re.findall` of the date pattern: scan, non-overlapping. -/
def findDatesAux (fuel : Nat) (l : List Char) : List (List Char) :=
  match fuel with
  | 0 => []
  | fuel + 1 =>
    match l with
    | [] => []
    | _ :: tl =>
      match tryDateAt l with
      | some (m, rest) => m :: findDatesAux fuel rest
      | none => findDatesAux fuel tl

def findDates (q : String) : List String :=
  (findDatesAux (q.data.length + 1) q.data).map String.mk

def isLeapYear (y : Int) : Bool :=
  (y % 4 = 0 ∧ y % 100 ≠ 0) ∨ y % 400 = 0

def daysInMonth (y m : Int) : Int :=
  if m = 2 then (if isLeapYear y then 29 else 28)
  else if m = 4 ∨ m = 6 ∨ m = 9 ∨ m = 11 then 30
  else 31

/-- `datetime.strptime(t.replace('/', '-'), '%Y-%m-%d')`, as an epoch
day number; `none` models the `ValueError` of an invalid date. -/
def parseDateStr (t : String) : Option Int :=
  match pySplit (pyReplace t "/" "-") "-" with
  | [ys, ms, dsS] =>
    match parseFloatChecked ys.data, parseFloatChecked ms.data,
        parseFloatChecked dsS.data with
    | some y, some m, some d =>
      if y.den = 1 ∧ m.den = 1 ∧ d.den = 1 ∧ 1 ≤ m.num ∧ m.num ≤ 12 ∧
          1 ≤ d.num ∧ d.num ≤ daysInMonth y.num m.num then
        some (daysFromCivil y.num m.num d.num)
      else none
    | _, _, _ => none
  | _ => none

/-- `TimeTool._calculate_date_difference`. -/
def calcDateDiff (q : String) : String :=
  match findDates q with
  | [d1, d2] =>
    match parseDateStr d1, parseDateStr d2 with
    | some z1, some z2 =>
      d1 ++ " 和 " ++ d2 ++ " 相差 " ++ toString (z2 - z1).natAbs ++ " 天"
    | _, _ => "格式错误，请使用 \x272024-01-01到2024-12-31的天数\x27 格式"
  | _ => "格式错误，请使用 \x272024-01-01到2024-12-31的天数\x27 格式"

/-- `TimeTool._get_weekday_info`. -/
def weekdayInfo (now : PyDateTime) (q : String) : String :=
  if containsSub q "今天" then
    "今天是" ++ fmtYMDCn now.days ++ "，" ++ chineseWeekday (weekdayOf now.days)
  else if containsSub q "明天" then
    "明天是" ++ fmtYMDCn (now.days + 1) ++ "，" ++
      chineseWeekday (weekdayOf (now.days + 1))
  else if containsSub q "昨天" then
    "昨天是" ++ fmtYMDCn (now.days - 1) ++ "，" ++
      chineseWeekday (weekdayOf (now.days - 1))
  else
    "今天是" ++ fmtYMDCn now.days ++ "，" ++ chineseWeekday (weekdayOf now.days)

/-- `TimeTool._get_chinese_calendar`. -/
def chineseCalendar (now : PyDateTime) : String :=
  "当前日期: " ++ fmtYMDCn now.days ++ "\n注：完整的农历功能需要安装lunarcalendar库"

def epochSeconds (t : PyDateTime) : Int :=
  t.days * 86400 + Int.ofNat (t.hh * 3600 + t.mi * 60 + t.ss)

/-- `TimeTool._countdown_to_date`: `datetime` comparison of the target
midnight against the current instant; `timedelta.days` floors. -/
def countdownTo (now : PyDateTime) (q : String) : String :=
  match (findDates q).head? with
  | some d =>
    match parseDateStr d with
    | some z =>
      let target := z * 86400
      let nowS := epochSeconds now
      if target < nowS then
        d ++ " 已经过去 " ++ toString ((nowS - target) / 86400) ++ " 天了"
      else
        "距离 " ++ d ++ " 还有 " ++ toString ((target - nowS) / 86400) ++ " 天"
    | none => "格式错误，请使用 \x27倒计时到2024-12-31\x27 格式"
  | none => "格式错误，请使用 \x27倒计时到2024-12-31\x27 格式"

/-- `TimeTool._get_detailed_time_info` (the timestamp is modelled as
epoch seconds of the model clock). -/
def detailedTimeInfo (now : PyDateTime) : String :=
  joinSep "\n"
    ["📅 日期: " ++ fmtYMDCn now.days,
     "⏰ 时间: " ++ fmtHMS now,
     "📆 星期: " ++ chineseWeekday (weekdayOf now.days),
     "🔄 时间戳: " ++ toString (epochSeconds now),
     "🌍 时区: 中国标准时间 (UTC+8)"]

/-- `TimeTool.execute`: lower-case and trim the query, dispatch on the
contained keywords; the surrounding `try/except` never fires in the
model (all handlers are total). -/
def timeExecute (now : PyDateTime) (query : String) : String :=
  let q := strTrim (asciiLower query)
  if q = "现在" ∨ q = "当前时间" ∨ q = "现在几点了" ∨ q = "时间" then
    formatTimeDetail now "本地时间"
  else if containsSub q "utc" then formatTimeDetail now "UTC时间"
  else if containsSub q "时区" || containsSub q "timezone" then
    handleTimezoneQuery now q
  else if containsSub q "天后" || containsSub q "days after" then
    calcFutureDate now q
  else if containsSub q "天前" || containsSub q "days ago" then
    calcPastDate now q
  else if containsSub q "相差" || containsSub q "difference" || containsSub q "到" then
    calcDateDiff q
  else if containsSub q "星期" || containsSub q "周" then weekdayInfo now q
  else if containsSub q "农历" || containsSub q "阴历" then chineseCalendar now
  else if containsSub q "倒计时" || containsSub q "countdown" then countdownTo now q
  else detailedTimeInfo now

/-! ## Tool registry and dispatch (`ToolFactory`)

`ToolFactory._register_tools` builds the dict `self._tools` with the
four wrapped tools; `get_tool` is `self._tools.get(tool_name)` — it
returns `None` (no `Tool`, no Result) for an unknown name.  Dispatching
through a registry entry applies the stored lambda, which calls the
underlying tool's `execute` directly. -/

inductive ToolTag where
  | calcT
  | timeT
  | fileT
  | webT
  deriving DecidableEq, Repr

def toolRegistry : List (String × ToolTag) :=
  [("calculator", .calcT), ("time_tool", .timeT),
   ("file_tool", .fileT), ("web_tool", .webT)]

def toolNames : List String := toolRegistry.map (fun e => e.1)

/-- The per-session environment a dispatch runs against: sandbox base
and home directory, filesystem state, HTTP oracle, clock. -/
structure ToolEnv where
  base : FPath
  home : FPath
  fs : FileSys
  http : String → HttpResp
  now : PyDateTime

/-- `ToolFactory.get_tool`: dict lookup, `none` for an unknown name. -/
def getToolTag (name : String) : Option ToolTag :=
  (toolRegistry.find? (fun e => e.1 == name)).map (fun e => e.2)

/-- Apply a registry entry's lambda to the argument string. -/
def runTool (env : ToolEnv) (arg : String) : ToolTag → String
  | .calcT => (calcRegistryDispatch arg).output
  | .timeT => timeExecute env.now arg
  | .fileT => fileRegistryDispatch env.base env.fs arg
  | .webT => (webRegistryDispatch env.http arg).output

/-- Dispatch by name through the registry: look the name up
(`get_tool`) and apply the stored function; an unknown name yields no
result at all. -/
def invokeTool (env : ToolEnv) (name arg : String) : Option String :=
  (getToolTag name).map (runTool env arg)

def sampleHttp : String → HttpResp := fun _ => ⟨200, "hello"⟩

def sampleNow : PyDateTime := ⟨20000, 12, 0, 0⟩

def sampleFS : FileSys := ⟨[["s"]], []⟩

def sampleEnv : ToolEnv := ⟨["s"], ["home", "u"], sampleFS, sampleHttp, sampleNow⟩


/-! ## Remaining definitions used by the theorems -/

/-- `isTempSym fu && isTempSym tu`: the guard selecting the temperature
pivot inside `_convert_units`. -/
def bothTempB (fu tu : String) : Bool := isTempSym fu && isTempSym tu

/-- Category lookup combined with the two factor lookups of
`_convert_units` (`self.units[unit_type][from_unit]` /
`...[to_unit]`). -/
def lookupUnitFactors (fu tu : String) : Option (PyQ × PyQ) :=
  match findUnitCategory fu tu with
  | none => none
  | some cat =>
    match catFactor cat.2 fu, catFactor cat.2 tu with
    | some f, some g => some (f, g)
    | _, _ => none

/-- The structured-format extensions of `_read_file`'s dispatch. -/
def structuredExts : List String := [".json", ".csv", ".xlsx", ".xls"]

/-- A sandbox with 15 subdirectories and no files (for the directory
listing analysis). -/
def demoDirs15 : FileSys :=
  ⟨[["s"]] ++ (List.range 15).map (fun i => ["s", "d" ++ toString i]), []⟩

/-! ## Shared lemmas -/

lemma isPrefixOf_self (l : List String) : l.isPrefixOf l = true := by
  simp [List.isPrefixOf_iff_prefix]

/-! ## Claim theorems -/

/-- C1 (amended): for every expression matching a deny-listed pattern
(import/exec/eval/dunder/open/os./sys./subprocess markers,
case-insensitive), invoking the calculator through `BaseTool.__call__`
with the `expression` keyword returns the input-validation failure
message and takes the `rejected` route — in particular the underlying
expression interpreter is not invoked.  (The original claim extends
this to the tool registry's dispatch path; that part is refuted by
`calc_registry_dispatch_reaches_interpreter`, since the registry lambda
calls `execute` directly and bypasses `validate_input`.) -/
theorem calc_deny_rejected_via_call (e : String) (h : dangerousExpr e = true) :
    calcToolCall e = ⟨.rejected, "工具 calculator 输入验证失败"⟩ := by
  simp [calcToolCall, calcValidateInput, h]

theorem calc_deny_rejected_via_call_witness :
    dangerousExpr "__x__" = true ∧
      calcToolCall "__x__" = ⟨.rejected, "工具 calculator 输入验证失败"⟩ :=
  ⟨by decide, calc_deny_rejected_via_call "__x__" (by decide)⟩

/-- C1 (counterexample to the claim as stated): the expression `__x__`
matches the dunder deny pattern, yet dispatched through the tool
registry's calculator entry it takes the `math` route — the expression
interpreter is invoked on it, because
`Tool(func=lambda x: calculator_tool.execute(expression=x))` never
calls `validate_input`. -/
theorem calc_registry_dispatch_reaches_interpreter :
    dangerousExpr "__x__" = true ∧
      (calcRegistryDispatch "__x__").route = CalcRoute.math :=
  ⟨by decide, rfl⟩

/-- C10 (amended): every expression whose preprocessed text contains
the two-character substring `to` anywhere (case-insensitively) is
routed by `execute` to the unit-conversion handler, never to arithmetic
or statistical evaluation.  (The original claim's example identifier
`atan` does not contain `to` and is routed to arithmetic evaluation —
see `atan_routes_to_math`; an identifier that does contain `to`, such
as `factorial`, is indeed treated as a malformed conversion.) -/
theorem to_substring_routes_to_conversion (e : String)
    (h : containsSub (asciiLower (preprocessExpression e)) "to" = true) :
    (calcExecuteO e).route = CalcRoute.conversion ∧
      (calcExecuteO e).output = convertUnits (preprocessExpression e) := by
  simp [calcExecuteO, h]

theorem to_substring_routes_to_conversion_witness :
    containsSub (asciiLower (preprocessExpression "factorial(3)")) "to" = true ∧
      ((calcExecuteO "factorial(3)").route = CalcRoute.conversion ∧
        (calcExecuteO "factorial(3)").output =
          convertUnits (preprocessExpression "factorial(3)")) :=
  ⟨by decide, to_substring_routes_to_conversion "factorial(3)" (by decide)⟩

/-- C10 (counterexample to the claim as stated): `atan(1)` — the
claim's own example — does not contain the substring `to` (neither
before nor after preprocessing, which rewrites it to `amath.tan(1)`),
and `execute` routes it to arithmetic evaluation, not to the
unit-conversion handler. -/
theorem atan_routes_to_math :
    containsSub (asciiLower (preprocessExpression "atan(1)")) "to" = false ∧
      (calcExecuteO "atan(1)").route = CalcRoute.math :=
  ⟨by decide, rfl⟩

/-- C5: every arithmetic expression (one taking the `math` route) whose
evaluation raises a division by zero produces the `DivisionByZero`
diagnostic as an ordinary result string; the fault is converted by
`execute`'s handler, never propagated (the model's `execute` is a total
function into result strings). -/
theorem division_by_zero_is_result (e : String)
    (hr : (calcExecuteO e).route = CalcRoute.math)
    (hz : evaluateMath (preprocessExpression e) = .error .zeroDiv) :
    (calcExecuteO e).output = "错误：除数不能为零" := by
  unfold calcExecuteO at hr ⊢
  dsimp only at hr ⊢
  split at hr
  · simp at hr
  · split at hr
    · simp at hr
    · simp_all

theorem division_by_zero_is_result_witness :
    (calcExecuteO "10/0").route = CalcRoute.math ∧
      evaluateMath (preprocessExpression "10/0") = .error .zeroDiv ∧
      (calcExecuteO "10/0").output = "错误：除数不能为零" :=
  ⟨rfl, rfl, division_by_zero_is_result "10/0" rfl rfl⟩

/-- C7: a unit conversion whose two units are registered in a common
non-temperature category scales by `value * factor(from) / factor(to)`
— exactly, over the rational model (part 3); when no category contains
both units it fails with the unsupported-unit diagnostic (part 2); and
`evaluate("10km to m")` yields exactly 10000 (rendered `10000.0000`,
part 4). -/
theorem unit_conversion_formula (v f g : PyQ) (fu tu : String) :
    (bothTempB fu tu = false → lookupUnitFactors fu tu = some (f, g) →
      convertParsedUnits v fu tu =
        pyFloatStr v ++ fu ++ " = " ++ fixedFrac ((v.mul f).div g) 4 ++ tu) ∧
    (bothTempB fu tu = false → findUnitCategory fu tu = none →
      convertParsedUnits v fu tu = "不支持 " ++ fu ++ " 到 " ++ tu ++ " 的转换") ∧
    (v.den ≠ 0 → f.den ≠ 0 → g.den ≠ 0 → g.num ≠ 0 →
      PyQ.toRat ((v.mul f).div g) = v.toRat * f.toRat / g.toRat) ∧
    calcExecuteO "10km to m" = ⟨.conversion, "10.0km = 10000.0000m"⟩ := by
  refine ⟨?_, ?_, ?_, rfl⟩
  · intro hb hl
    have hb' : (isTempSym fu && isTempSym tu) = false := hb
    unfold convertParsedUnits
    rw [hb']
    simp only [Bool.false_eq_true, if_false]
    unfold lookupUnitFactors at hl
    rcases hcat : findUnitCategory fu tu with _ | cat
    · rw [hcat] at hl; simp at hl
    · rw [hcat] at hl
      dsimp only at hl ⊢
      rcases hf : catFactor cat.2 fu with _ | f'
      · rw [hf] at hl; simp at hl
      · rcases hg : catFactor cat.2 tu with _ | g'
        · rw [hf, hg] at hl; simp at hl
        · rw [hg] at hl
          dsimp only at hl ⊢
          simp_all
  · intro hb hcat
    have hb' : (isTempSym fu && isTempSym tu) = false := hb
    unfold convertParsedUnits
    rw [hb']
    simp [hcat]
  · intro hv hf hg hgn
    have hv' : (v.den : ℚ) ≠ 0 := Int.cast_ne_zero.mpr hv
    have hf' : (f.den : ℚ) ≠ 0 := Int.cast_ne_zero.mpr hf
    have hg' : (g.den : ℚ) ≠ 0 := Int.cast_ne_zero.mpr hg
    have hgn' : (g.num : ℚ) ≠ 0 := Int.cast_ne_zero.mpr hgn
    unfold PyQ.mul PyQ.div PyQ.toRat
    dsimp only
    split <;> (push_cast; field_simp; try ring)

theorem unit_conversion_formula_witness :
    lookupUnitFactors "km" "m" = some (⟨1000, 1⟩, ⟨1, 1⟩) ∧
    convertParsedUnits ⟨10, 1⟩ "km" "m" = "10.0km = 10000.0000m" ∧
    findUnitCategory "km" "kg" = none ∧
    convertParsedUnits ⟨10, 1⟩ "km" "kg" = "不支持 km 到 kg 的转换" ∧
    PyQ.toRat ((PyQ.mul ⟨10, 1⟩ ⟨1000, 1⟩).div ⟨1, 1⟩) =
      PyQ.toRat ⟨10, 1⟩ * PyQ.toRat ⟨1000, 1⟩ / PyQ.toRat ⟨1, 1⟩ := by
  refine ⟨by decide, ?_, by decide, ?_, ?_⟩
  · exact (unit_conversion_formula ⟨10, 1⟩ ⟨1000, 1⟩ ⟨1, 1⟩ "km" "m").1
      (by decide) (by decide)
  · exact (unit_conversion_formula ⟨10, 1⟩ ⟨1000, 1⟩ ⟨1, 1⟩ "km" "kg").2.1
      (by decide) (by decide)
  · exact (unit_conversion_formula ⟨10, 1⟩ ⟨1000, 1⟩ ⟨1, 1⟩ "km" "m").2.2.1
      (by decide) (by decide) (by decide) (by decide)

/-- C8: temperature conversions pivot through the Celsius base scale
with `(c×9/5)+32`, `(f−32)×5/9` and `±273.15`, for every pair of the
three scales (stated over the exact rational view); and
`evaluate("0C to F")` yields 32 (rendered `0.0C = 32.0F`). -/
theorem temperature_pivot_formulas (v : PyQ) (hv : v.den ≠ 0) :
    (convertTemperatureE v "c" "f").map PyQ.toRat = .ok (v.toRat * 9 / 5 + 32) ∧
    (convertTemperatureE v "f" "c").map PyQ.toRat = .ok ((v.toRat - 32) * 5 / 9) ∧
    (convertTemperatureE v "c" "k").map PyQ.toRat = .ok (v.toRat + 27315 / 100) ∧
    (convertTemperatureE v "k" "c").map PyQ.toRat = .ok (v.toRat - 27315 / 100) ∧
    (convertTemperatureE v "f" "k").map PyQ.toRat =
      .ok ((v.toRat - 32) * 5 / 9 + 27315 / 100) ∧
    (convertTemperatureE v "k" "f").map PyQ.toRat =
      .ok ((v.toRat - 27315 / 100) * 9 / 5 + 32) ∧
    calcExecuteO "0C to F" = ⟨.conversion, "0.0C = 32.0F"⟩ := by
  have hv' : (v.den : ℚ) ≠ 0 := Int.cast_ne_zero.mpr hv
  refine ⟨?_, ?_, ?_, ?_, ?_, ?_, rfl⟩ <;>
  · refine congrArg Except.ok ?_
    simp only [PyQ.toRat, PyQ.mul, PyQ.add, PyQ.sub, q27315]
    push_cast
    field_simp
    try ring

theorem temperature_pivot_formulas_witness :
    (⟨0, 1⟩ : PyQ).den ≠ 0 ∧
    (convertTemperatureE ⟨0, 1⟩ "c" "f").map PyQ.toRat =
      .ok (PyQ.toRat ⟨0, 1⟩ * 9 / 5 + 32) ∧
    calcExecuteO "0C to F" = ⟨.conversion, "0.0C = 32.0F"⟩ :=
  ⟨by decide, (temperature_pivot_formulas ⟨0, 1⟩ (by decide)).1,
   (temperature_pivot_formulas ⟨0, 1⟩ (by decide)).2.2.2.2.2.2⟩

lemma resolveStep_ordinary (acc : FPath) (c : String) (h1 : c ≠ "..") (h2 : c ≠ ".") :
    resolveStep acc c = acc ++ [c] := by
  simp [resolveStep, h1, h2]

lemma foldl_resolve_clean (b : FPath) :
    cleanComponents b = true → ∀ acc : FPath, b.foldl resolveStep acc = acc ++ b := by
  induction b with
  | nil => intro _ acc; simp
  | cons c tl ih =>
    intro hb acc
    unfold cleanComponents at hb
    rw [List.all_cons, Bool.and_eq_true] at hb
    obtain ⟨hc, htl⟩ := hb
    have hc2 : c ≠ "." := by intro hcc; subst hcc; simp at hc
    have hc3 : c ≠ ".." := by intro hcc; subst hcc; simp at hc
    rw [List.foldl_cons, resolveStep_ordinary acc c hc3 hc2]
    have := ih htl (acc ++ [c])
    rw [this]
    simp

lemma resolve_dotdot_etc (b : FPath) (hb : cleanComponents b = true) :
    resolvePath (b ++ ["..", "..", "etc", "passwd"]) =
      b.dropLast.dropLast ++ ["etc", "passwd"] := by
  unfold resolvePath
  rw [List.foldl_append, foldl_resolve_clean b hb []]
  simp [List.foldl, resolveStep]

lemma prefix_escape (b : FPath) (hne : b ≠ []) (hnetc : b ≠ ["etc"])
    (hends : b.drop (b.length - 2) ≠ ["etc", "passwd"]) :
    b.isPrefixOf (b.dropLast.dropLast ++ ["etc", "passwd"]) = false := by
  by_contra hcon
  rw [Bool.not_eq_false, List.isPrefixOf_iff_prefix] at hcon
  rcases b with _ | ⟨x, rest⟩
  · exact hne rfl
  rcases rest with _ | ⟨y, rest2⟩
  · simp only [List.dropLast_single, List.dropLast_nil, List.nil_append] at hcon
    obtain ⟨t, ht⟩ := hcon
    simp only [List.cons_append, List.cons.injEq] at ht
    exact hnetc (by rw [ht.1])
  · have hlen : ((x :: y :: rest2).dropLast.dropLast ++ ["etc", "passwd"]).length =
        (x :: y :: rest2).length := by
      simp [List.length_dropLast]
    have heq : (x :: y :: rest2) =
        (x :: y :: rest2).dropLast.dropLast ++ ["etc", "passwd"] := by
      have h1 := List.prefix_iff_eq_take.mp hcon
      have h2 : ((x :: y :: rest2).dropLast.dropLast ++ ["etc", "passwd"]).take
          (x :: y :: rest2).length =
          (x :: y :: rest2).dropLast.dropLast ++ ["etc", "passwd"] := by
        rw [show (x :: y :: rest2).length =
          ((x :: y :: rest2).dropLast.dropLast ++ ["etc", "passwd"]).length from hlen.symm]
        exact List.take_length _
      exact h1.trans h2
    apply hends
    have hd : (x :: y :: rest2).length - 2 =
        ((x :: y :: rest2).dropLast.dropLast).length := by
      simp [List.length_dropLast]
    calc (x :: y :: rest2).drop ((x :: y :: rest2).length - 2)
        = ((x :: y :: rest2).dropLast.dropLast ++ ["etc", "passwd"]).drop
            ((x :: y :: rest2).length - 2) := congrArg _ heq
      _ = ((x :: y :: rest2).dropLast.dropLast ++ ["etc", "passwd"]).drop
            ((x :: y :: rest2).dropLast.dropLast).length := by rw [hd]
      _ = ["etc", "passwd"] := List.drop_left _ _

/-- C2 (amended): (1) every path accepted by `_get_safe_path` is equal
to or a descendant of the SandboxRoot — each of the seven file
operations resolves its argument through `_get_safe_path` before
touching the filesystem, as visible in their definitions; (2) resolving
`"../../etc/passwd"` fails with the `PathEscape` diagnostic for every
canonical SandboxRoot other than `/`, `/etc`, or a root whose last two
components are `etc/passwd` (the original claim asserts this for every
SandboxRoot; `path_escape_counterexample` refutes that at root `/`);
(3) whenever a nonempty argument path resolves (inside the sandbox) to
a path under the fixed deny-list, `validate_input` rejects the
operation (the `RestrictedPath` of the specification). -/
theorem sandbox_confinement (base home : FPath) (p : String) :
    (∀ full, getSafePath base p = .ok full → base.isPrefixOf full = true) ∧
    (cleanComponents base = true → base ≠ [] → base ≠ ["etc"] →
      base.drop (base.length - 2) ≠ ["etc", "passwd"] →
      getSafePath base "../../etc/passwd" =
        .error (pathEscapeText "../../etc/passwd")) ∧
    (∀ full, p ≠ "" → getSafePath base p = .ok full → isPathSafe home full = false →
      fileValidateInput base home "read" p = false) := by
  refine ⟨?_, ?_, ?_⟩
  · intro full h
    unfold getSafePath at h
    split at h
    · simp only [Except.ok.injEq] at h
      rw [← h]
      exact isPrefixOf_self base
    · dsimp only at h
      split at h <;> split at h <;>
        first
        | (simp only [Except.ok.injEq] at h; subst h; assumption)
        | simp at h
  · intro hclean hne hnetc hends
    have hT := resolve_dotdot_etc base hclean
    have hP := prefix_escape base hne hnetc hends
    unfold getSafePath
    rw [if_neg (by decide)]
    dsimp only
    rw [show ((pySplit "../../etc/passwd" "/").filter
      (fun c => !(c == "") && !(c == "."))) = ["..", "..", "etc", "passwd"] from by decide]
    rw [show strStartsWith "../../etc/passwd" "/" = false from by decide]
    simp only [Bool.false_eq_true, if_false]
    rw [hT, hP]
    simp
  · intro full hp hok hunsafe
    simp [fileValidateInput, hp, hok, hunsafe]

theorem sandbox_confinement_witness :
    getSafePath ["sandbox", "data"] "a/b.txt" = .ok ["sandbox", "data", "a", "b.txt"] ∧
    List.isPrefixOf ["sandbox", "data"] ["sandbox", "data", "a", "b.txt"] = true ∧
    getSafePath ["sandbox", "data"] "../../etc/passwd" =
      .error (pathEscapeText "../../etc/passwd") ∧
    isPathSafe ["home", "u"] ["sandbox", "data", "a", "b.txt"] = false ∧
    fileValidateInput ["sandbox", "data"] ["home", "u"] "read" "a/b.txt" = false := by
  refine ⟨rfl, ?_, ?_, by decide, ?_⟩
  · exact (sandbox_confinement ["sandbox", "data"] ["home", "u"] "a/b.txt").1 _ rfl
  · exact (sandbox_confinement ["sandbox", "data"] ["home", "u"] "a/b.txt").2.1
      (by decide) (by decide) (by decide) (by decide)
  · exact (sandbox_confinement ["sandbox", "data"] ["home", "u"] "a/b.txt").2.2 _
      (by decide) rfl (by decide)

/-- C2 (counterexample to the claim as stated): with SandboxRoot `/`,
resolving `"../../etc/passwd"` does not fail with `PathEscape` — the
resolved path `/etc/passwd` is a descendant of `/`, so `_get_safe_path`
accepts it.  (Its deny-listing is then a matter for `validate_input`,
which the `execute` path does not consult.) -/
theorem path_escape_counterexample :
    getSafePath [] "../../etc/passwd" = .ok ["etc", "passwd"] ∧
    getSafePath [] "../../etc/passwd" ≠
      .error (pathEscapeText "../../etc/passwd") := by
  constructor
  · rfl
  · rw [show getSafePath [] "../../etc/passwd" = .ok ["etc", "passwd"] from rfl]
    simp

lemma strTake_of_le (s : String) (n : Nat) (h : strLen s ≤ n) : strTake s n = s := by
  cases s with
  | mk d => exact congrArg String.mk (List.take_of_length_le h)

lemma findFile_insert (fs : FileSys) (p : FPath) (c : String) :
    findFile (insertFile fs p c) p = some c := by
  simp [findFile, insertFile, List.find?]

/-- C6 (amended): writing a sandbox path whose parent directory exists
and reading it back returns byte-identical content, provided the target
is not a directory, its extension is not one of the structured-decoder
formats (`.json`/`.csv`/`.xlsx`/`.xls`), the encoded size is within the
10 MB read cap, and the content is shorter than the 5000-character
text-preview cap.  (The original claim, without the last two provisos,
is refuted by `roundtrip_counterexample`: a `.json` file whose content
is not valid JSON cannot be read back at all; a file of 5000 characters
or more is truncated.) -/
theorem write_then_read_roundtrip (base : FPath) (fs : FileSys) (p content : String)
    (full : FPath)
    (hok : getSafePath base p = .ok full)
    (hparent : isDirB fs full.dropLast = true)
    (hnotdir : isDirB fs full = false)
    (hext : structuredExts.contains (fileSuffix full) = false)
    (hsize : utf8Len content ≤ 10 * 1024 * 1024)
    (hlen : strLen content < 5000) :
    (writeFile base fs p content).2 = "文件保存成功: " ++ p ∧
    readFile base (writeFile base fs p content).1 p = "文件内容:\n" ++ content := by
  have hw : writeFile base fs p content =
      (insertFile fs full content, "文件保存成功: " ++ p) := by
    unfold writeFile
    rw [hok]
    dsimp only
    simp [pathExistsB, hparent, hnotdir]
  refine ⟨by rw [hw], ?_⟩
  rw [hw]
  have hff : findFile (insertFile fs full content) full = some content :=
    findFile_insert fs full content
  have hnd : isDirB (insertFile fs full content) full = false := hnotdir
  have hexts : fileSuffix full ≠ ".json" ∧ fileSuffix full ≠ ".csv" ∧
      fileSuffix full ≠ ".xlsx" ∧ fileSuffix full ≠ ".xls" := by
    simpa [structuredExts] using hext
  unfold readFile
  rw [hok]
  dsimp only
  rw [show pathExistsB (insertFile fs full content) full = true from by
    simp [pathExistsB, isFileB, hff]]
  rw [show isFileB (insertFile fs full content) full = true from by
    simp [isFileB, hff]]
  rw [hff]
  simp only [Bool.not_true, Bool.false_eq_true, if_false, Option.getD_some]
  rw [if_neg (by omega : ¬ utf8Len content > 10 * 1024 * 1024)]
  rw [if_neg hexts.1, if_neg hexts.2.1]
  rw [if_neg (by
    rintro (h | h)
    · exact hexts.2.2.1 h
    · exact hexts.2.2.2 h)]
  rw [strTake_of_le content 5000 (le_of_lt hlen)]
  rw [if_neg (by omega : ¬ strLen content = 5000)]

theorem write_then_read_roundtrip_witness :
    getSafePath ["s"] "a.txt" = .ok ["s", "a.txt"] ∧
    isDirB sampleFS ["s"] = true ∧
    (writeFile ["s"] sampleFS "a.txt" "hi").2 = "文件保存成功: a.txt" ∧
    readFile ["s"] (writeFile ["s"] sampleFS "a.txt" "hi").1 "a.txt" =
      "文件内容:\nhi" := by
  refine ⟨rfl, by decide, ?_⟩
  exact write_then_read_roundtrip ["s"] sampleFS "a.txt" "hi" ["s", "a.txt"]
    rfl (by decide) (by decide) (by decide) (by decide) (by decide)

/-- C6 (counterexample to the claim as stated): writing the 5-byte
content `hello` (well within any size cap) to `notes.json` — a sandbox
path whose parent directory exists — succeeds, but reading the path
back yields the JSON-decode failure diagnostic, not content
byte-identical to what was written: `_read_file` dispatches `.json`
files to `json.load`, which rejects `hello`. -/
theorem roundtrip_counterexample :
    (writeFile ["s"] sampleFS "notes.json" "hello").2 = "文件保存成功: notes.json" ∧
    readFile ["s"] (writeFile ["s"] sampleFS "notes.json" "hello").1 "notes.json" =
      "读取文件失败: Expecting value: line 1 column 1 (char 0)" ∧
    containsSub
      (readFile ["s"] (writeFile ["s"] sampleFS "notes.json" "hello").1 "notes.json")
      "hello" = false :=
  ⟨rfl, rfl, by decide⟩

/-- C9 (amended): a directory listing separates directory entries from
file entries (each file entry is rendered with its human-readable size
by `_list_directory`), displays at most 10 entries per category — the
component count works out to exactly the header plus the capped,
bannered sections — and appends the `... 共 N 个项目，只显示前20个`
overflow line exactly when the total entry count (directories plus
files) exceeds 20, in which case it is the last component.  (The
original claim ties the suffix to a per-category cap being exceeded;
`listing_overflow_counterexample` refutes that with 15 directories and
no files: the 11th-15th entries are silently dropped and no suffix
appears, since 15 ≤ 20.) -/
theorem listing_caps_and_overflow (dp : String) (dirEntries fileEntries : List String) :
    (listingComponents dp dirEntries fileEntries).length =
      1 + (if dirEntries.isEmpty then 0 else 1 + min 10 dirEntries.length)
        + (if fileEntries.isEmpty then 0 else 1 + min 10 fileEntries.length)
        + (if dirEntries.length + fileEntries.length > 20 then 1 else 0) ∧
    (dirEntries.length + fileEntries.length > 20 →
      (listingComponents dp dirEntries fileEntries).getLast? =
        some (overflowLine (dirEntries.length + fileEntries.length))) := by
  constructor
  · unfold listingComponents
    by_cases h1 : dirEntries.isEmpty <;> by_cases h2 : fileEntries.isEmpty <;>
      by_cases h3 : dirEntries.length + fileEntries.length > 20 <;>
      simp [h1, h2, h3, List.length_append, List.length_take] <;> omega
  · intro h
    unfold listingComponents
    rw [if_pos h]
    exact List.getLast?_concat _

theorem listing_caps_and_overflow_witness :
    (List.replicate 21 "d").length + ([] : List String).length > 20 ∧
    (listingComponents "." (List.replicate 21 "d") []).getLast? =
      some (overflowLine
        ((List.replicate 21 "d").length + ([] : List String).length)) :=
  ⟨by decide, (listing_caps_and_overflow "." (List.replicate 21 "d") []).2 (by decide)⟩

/-- C9 (counterexample to the claim as stated): a directory with 15
subdirectories and no files exceeds the 10-entry display cap for the
directory category, yet the listing carries no overflow suffix (the
suffix fires only when the total exceeds 20): entry `d0/` is shown,
entry `d14` is dropped, and the `只显示` marker is absent. -/
theorem listing_overflow_counterexample :
    (childDirNames demoDirs15 ["s"]).length = 15 ∧
    containsSub (listDirectory ["s"] demoDirs15 ".") "只显示" = false ∧
    containsSub (listDirectory ["s"] demoDirs15 ".") "d0/" = true ∧
    containsSub (listDirectory ["s"] demoDirs15 ".") "d14" = false := by
  decide

/-- C3 (amended): for every URL containing a deny-listed host pattern
(loopback or private-network literal), invoking the web tool through
`BaseTool.__call__` fails validation before `execute` runs: the outcome
carries the validation-failure message and zero network requests, for
every operation and HTTP oracle.  (The original claim extends this to
the tool registry's dispatch path; `ssrf_registry_counterexample`
refutes that part, since the registry lambda calls `execute`
directly.) -/
theorem ssrf_blocked_via_call (http : String → HttpResp)
    (op url method jsonStr : String) (h : urlHitsDenyList url = true) :
    webToolCall http op url method jsonStr = ⟨0, "工具 web_tool 输入验证失败"⟩ := by
  have hne : url ≠ "" := by
    intro he
    rw [he] at h
    exact absurd h (by decide)
  by_cases hop : op = ""
  · simp [webToolCall, webValidateInput, hop]
  · simp [webToolCall, webValidateInput, hop, hne, h]

theorem ssrf_blocked_via_call_witness :
    urlHitsDenyList "http://127.0.0.1/" = true ∧
    webToolCall sampleHttp "fetch" "http://127.0.0.1/" "GET" "" =
      ⟨0, "工具 web_tool 输入验证失败"⟩ :=
  ⟨by decide,
   ssrf_blocked_via_call sampleHttp "fetch" "http://127.0.0.1/" "GET" "" (by decide)⟩

/-- C3 (counterexample to the claim as stated): fetching
`http://127.0.0.1/` through the tool registry's web entry issues one
network request — `Tool(func=lambda x: web_tool.execute(operation="fetch",
url=x))` bypasses `validate_input`, so the host check never runs before
the request. -/
theorem ssrf_registry_counterexample :
    urlHitsDenyList "http://127.0.0.1/" = true ∧
    (webRegistryDispatch sampleHttp "http://127.0.0.1/").requests = 1 :=
  ⟨by decide, rfl⟩

/-- C4 (amended): dispatch through the registry is total — for each of
the four registered tool names it returns a textual result for every
argument and environment (all component faults are caught inside the
component bodies and the `__call__`/`execute` handlers, which the model
renders as total functions into strings); for an unknown tool name
`get_tool` returns `None` without raising, so the dispatch produces no
result at all.  (The original claim says an unknown name yields an
`UnknownTool` failure Result; `unknown_tool_counterexample` refutes
that — no such Result exists in this repository, absence handling is
left to the external executor.) -/
theorem dispatch_totality (env : ToolEnv) (name arg : String) :
    (toolNames.contains name = true → (invokeTool env name arg).isSome = true) ∧
    (toolNames.contains name = false → invokeTool env name arg = none) := by
  by_cases h1 : name = "calculator"
  · subst h1
    exact ⟨fun _ => rfl, fun h => by simp [toolNames, toolRegistry] at h⟩
  by_cases h2 : name = "time_tool"
  · subst h2
    exact ⟨fun _ => rfl, fun h => by simp [toolNames, toolRegistry] at h⟩
  by_cases h3 : name = "file_tool"
  · subst h3
    exact ⟨fun _ => rfl, fun h => by simp [toolNames, toolRegistry] at h⟩
  by_cases h4 : name = "web_tool"
  · subst h4
    exact ⟨fun _ => rfl, fun h => by simp [toolNames, toolRegistry] at h⟩
  constructor
  · intro h
    exfalso
    simp [toolNames, toolRegistry] at h
    rcases h with h | h | h | h <;> simp_all
  · intro _
    have e1 : ("calculator" == name) = false :=
      beq_eq_false_iff_ne.mpr (fun he => h1 he.symm)
    have e2 : ("time_tool" == name) = false :=
      beq_eq_false_iff_ne.mpr (fun he => h2 he.symm)
    have e3 : ("file_tool" == name) = false :=
      beq_eq_false_iff_ne.mpr (fun he => h3 he.symm)
    have e4 : ("web_tool" == name) = false :=
      beq_eq_false_iff_ne.mpr (fun he => h4 he.symm)
    simp [invokeTool, getToolTag, toolRegistry, List.find?, e1, e2, e3, e4]

theorem dispatch_totality_witness :
    toolNames.contains "calculator" = true ∧
    (invokeTool sampleEnv "calculator" "2+2").isSome = true ∧
    toolNames.contains "nonexistent_tool" = false ∧
    invokeTool sampleEnv "nonexistent_tool" "x" = none :=
  ⟨by decide, (dispatch_totality sampleEnv "calculator" "2+2").1 (by decide),
   by decide, (dispatch_totality sampleEnv "nonexistent_tool" "x").2 (by decide)⟩

/-- C4 (counterexample to the claim as stated): dispatching the unknown
name `nonexistent_tool` produces no Result at all — `get_tool` is
`self._tools.get(tool_name)`, which returns `None`; no `UnknownTool`
failure Result with `success = false` is built anywhere in the
repository. -/
theorem unknown_tool_counterexample :
    invokeTool sampleEnv "nonexistent_tool" "x" = none := rfl
